import Mathlib

/-!
# Dynamixel current-control programs: a shallow embedding

The development follows the control programs of the repository:
`current_control2.cpp` (two actuators), `current.cpp` (one actuator, PD loop)
and `error.cpp` (one actuator, position profile).

* Floating-point values are exact rationals; the conversion of a `double` to an
  integer type truncates toward zero and is then reduced to the width of the
  target type (two's complement).
* A run is given by its environment: the replies of the bus to the successive
  register transactions, and the clock and stop observations of each loop tick.
  What the program does is the list of the events it issues, in order.
-/

namespace Dinamixel

/-! ## Machine arithmetic -/

/-- Two's-complement reduction of an integer to the range of `int16_t`. -/
def wrapInt16 (z : Int) : Int := (z + 32768) % 65536 - 32768

/-- Two's-complement reduction of an integer to the range of `int32_t`. -/
def wrapInt32 (z : Int) : Int := (z + 2147483648) % 4294967296 - 2147483648

/-- Membership in the range of `int32_t`. -/
def isInt32 (z : Int) : Prop := -2147483648 ≤ z ∧ z ≤ 2147483647

instance (z : Int) : Decidable (isInt32 z) := by unfold isInt32; infer_instance

/-- Conversion of a real value to an integer, truncating toward zero (the value
part of `static_cast<intN_t>(double)`): the quotient of the numerator by the
denominator, taken on the absolute value and given the sign back. -/
def truncToInt (x : ℚ) : Int :=
  if 0 ≤ x.num then x.num / (x.den : Int) else -((-x.num) / (x.den : Int))

/-! ## current_control2.cpp: trajectory generator -/

/-- The function `calculateTargetPosition` of `current_control2.cpp`:
`goal_pos` once `t >= duration`, otherwise the linear profile
`start_pos + (t / duration) * (goal_pos - start_pos)` converted to `int32_t`.
The subtraction `goal_pos - start_pos` is an `int32_t` subtraction. -/
def calculateTargetPosition (start_pos goal_pos : Int) (t duration : ℚ) : Int :=
  if t ≥ duration then
    goal_pos
  else
    let ratio : ℚ := t / duration
    wrapInt32 (truncToInt ((start_pos : ℚ) + ratio * ((wrapInt32 (goal_pos - start_pos) : Int) : ℚ)))

/-- The trajectory of the specification, written from its words:
`start + clamp(t/duration, 0, 1) * (goal - start)`, truncated to an integer. -/
def specTarget (start goal : Int) (t duration : ℚ) : Int :=
  truncToInt ((start : ℚ) + max 0 (min 1 (t / duration)) * (((goal - start : Int)) : ℚ))

/-! ## Register transactions and events -/

/-- The value `COMM_SUCCESS` of the SDK. -/
def COMM_SUCCESS : Int := 0

/-- What one register transaction leaves behind: the communication result
returned by the call, the error byte stored through the `error` pointer, and
(for a read) the content of the destination variable after the call. -/
structure Reply where
  comm : Int
  error : Nat
  data : Int
deriving DecidableEq, Repr

/-- The replies of the bus to the successive transactions of a run:
`bus n` answers the transaction number `n` (counted from 0). -/
abbrev Bus := Nat → Reply

/-- One sample of `data_log` (`struct DataRecord`). -/
structure DataRecord where
  time : ℚ
  current : Int
  position : Int
deriving DecidableEq

/-- The observable actions of a run, in the order they are issued. -/
inductive Event where
  | write1 (id addr : Nat) (value : Int)
  | write2 (id addr : Nat) (value : Int)
  | write4 (id addr : Nat) (value : Int)
  | read4 (id addr : Nat)
  | read2 (id addr : Nat)
  | stopFlagRead (value : Bool)
  | row (elapsed : ℚ) (position1 current1 position2 current2 : Int)
  | saveCsv (rows : List DataRecord)
  | closePort
deriving DecidableEq

/-- Outcome of one pass through a loop body: the loop is left (`exit`), or the
body ran to its end and the loop goes on with a new state (`next`). -/
inductive Step (σ : Type) where
  | exit (events : List Event)
  | next (events : List Event) (state : σ)

/-- The events issued during one pass through a loop body. -/
def Step.events {σ : Type} : Step σ → List Event
  | Step.exit ev => ev
  | Step.next ev _ => ev

/-- An event is a register transaction on the bus (a read or a write). -/
def isTransaction : Event → Bool
  | Event.write1 _ _ _ => true
  | Event.write2 _ _ _ => true
  | Event.write4 _ _ _ => true
  | Event.read4 _ _ => true
  | Event.read2 _ _ => true
  | _ => false

/-- A transaction succeeded: `COMM_SUCCESS` and a zero error byte. -/
def replyOk (r : Reply) : Bool := r.comm == COMM_SUCCESS && r.error == 0

/-- The number of replies, among the `n` replies from index `k` on, that come
before the first reply that is not a success. -/
def okPrefix (bus : Bus) (k : Nat) : Nat → Nat
  | 0 => 0
  | n + 1 => if replyOk (bus k) then okPrefix bus (k + 1) n + 1 else 0

def ADDR_OPERATING_MODE : Nat := 11
def ADDR_GOAL_CURRENT : Nat := 102
def ADDR_PRESENT_POSITION : Nat := 132
def ADDR_PRESENT_CURRENT : Nat := 126
def ADDR_TORQUE_ENABLE : Nat := 64
def TORQUE_ENABLE : Int := 1
def TORQUE_DISABLE : Int := 0

/-! ## current_control2.cpp -/

namespace CurrentControl2

def ADDR_TORQUE_LIMIT : Nat := 40
def DXL_ID1 : Nat := 1
def DXL_ID2 : Nat := 2
def CURRENT_CONTROL_MODE : Int := 0

/-- The function `printDxlError`: the pieces written to `std::cerr`, in order.
Nothing for a zero byte; otherwise the heading, one name per set bit among the
masks `0x01` to `0x40`, and the line end. -/
def printDxlError (error : Nat) : List String :=
  if error = 0 then []
  else
    ["エラー内容: "] ++
    (if error &&& 0x01 ≠ 0 then ["Input Voltage Error "] else []) ++
    (if error &&& 0x02 ≠ 0 then ["Angle Limit Error "] else []) ++
    (if error &&& 0x04 ≠ 0 then ["Overheating Error "] else []) ++
    (if error &&& 0x08 ≠ 0 then ["Range Error "] else []) ++
    (if error &&& 0x10 ≠ 0 then ["Checksum Error "] else []) ++
    (if error &&& 0x20 ≠ 0 then ["Overload Error "] else []) ++
    (if error &&& 0x40 ≠ 0 then ["Instruction Error "] else []) ++
    ["\n"]

/-- The name that the claim gives to fault number `i` (bit `1 <<< i`). -/
def faultName : Nat → String
  | 0 => "Input Voltage Error "
  | 1 => "Angle Limit Error "
  | 2 => "Overheating Error "
  | 3 => "Range Error "
  | 4 => "Checksum Error "
  | 5 => "Overload Error "
  | 6 => "Instruction Error "
  | _ => ""

/-- The output of `printDxlError` written from the claim: nothing for 0,
otherwise the heading, then in ascending order the names of the faults `i` in
`0..6` whose bit is set, then the line end. -/
def specDxlError (error : Nat) : List String :=
  if error = 0 then []
  else
    ["エラー内容: "] ++
      ((List.range 7).filter (fun i => error.testBit i)).map faultName ++ ["\n"]

/-- The function `getMotorData`: a 4-byte read of the present position and a
2-byte read of the present current, transactions `k` and `k + 1` of the run.
A failed read is only reported on the console; the function returns nothing to
its caller but the two variables. -/
def getMotorData (bus : Bus) (k : Nat) (id : Nat) : (Int × Int) × List Event :=
  let position := wrapInt32 (bus k).data
  let current := wrapInt16 (bus (k + 1)).data
  ((position, current),
    [Event.read4 id ADDR_PRESENT_POSITION, Event.read2 id ADDR_PRESENT_CURRENT])

/-- The function `setupMotor`, its writes being the transactions `k`, `k + 1`, ...
of the run: the result and the writes issued. -/
def setupMotor (bus : Bus) (k : Nat) (id : Nat) : Bool × List Event :=
  let w1 := Event.write1 id ADDR_TORQUE_ENABLE TORQUE_DISABLE
  let w2 := Event.write1 id ADDR_OPERATING_MODE CURRENT_CONTROL_MODE
  let w3 := Event.write2 id ADDR_GOAL_CURRENT 0
  let w4 := Event.write2 id ADDR_TORQUE_LIMIT 500
  let w5 := Event.write1 id ADDR_TORQUE_ENABLE TORQUE_ENABLE
  if (bus k).comm ≠ COMM_SUCCESS then (false, [w1])
  else if (bus k).error ≠ 0 then (false, [w1])
  else if (bus (k + 1)).comm ≠ COMM_SUCCESS then (false, [w1, w2])
  else if (bus (k + 1)).error ≠ 0 then (false, [w1, w2])
  else if (bus (k + 2)).comm ≠ COMM_SUCCESS then (false, [w1, w2, w3])
  else if (bus (k + 2)).error ≠ 0 then (false, [w1, w2, w3])
  else if (bus (k + 3)).comm ≠ COMM_SUCCESS then (false, [w1, w2, w3, w4])
  else if (bus (k + 3)).error ≠ 0 then (false, [w1, w2, w3, w4])
  else if (bus (k + 4)).comm ≠ COMM_SUCCESS then (false, [w1, w2, w3, w4, w5])
  else if (bus (k + 4)).error ≠ 0 then (false, [w1, w2, w3, w4, w5])
  else (true, [w1, w2, w3, w4, w5])

/-- The five writes of `setupMotor` in source order. -/
def setupWrites (id : Nat) : List Event :=
  [Event.write1 id ADDR_TORQUE_ENABLE TORQUE_DISABLE,
   Event.write1 id ADDR_OPERATING_MODE CURRENT_CONTROL_MODE,
   Event.write2 id ADDR_GOAL_CURRENT 0,
   Event.write2 id ADDR_TORQUE_LIMIT 500,
   Event.write1 id ADDR_TORQUE_ENABLE TORQUE_ENABLE]

/-- The environment of a run of `main`: the results of `openPort` and
`setBaudRate`, the bus, the value of `stop_flag` seen at the top of tick `i`,
the millisecond count of `now - start_time` at tick `i`, and whether the input
thread ever ends (so that `join` returns). -/
structure Env where
  openPort : Bool
  setBaudRate : Bool
  bus : Bus
  stop : Nat → Bool
  clockMs : Nat → Int
  inputThreadEnds : Bool

/-- The values fixed before the loop of `main`. -/
structure Params where
  start_position1 : Int
  goal_position1 : Int
  start_position2 : Int
  goal_position2 : Int

/-- The variables carried from one tick to the next. -/
structure LoopState where
  previous_error1 : ℚ
  previous_error2 : ℚ

def duration : ℚ := 1
def dt : ℚ := 1 / 100
def Kp : ℚ := 5
def Kd : ℚ := 1 / 2
def MAX_CURRENT : Int := 500
def MIN_CURRENT : Int := 0

/-- The derivative `(error - previous_error) / dt` of a tick. -/
def derivative (error previous_error : ℚ) : ℚ := (error - previous_error) / dt

/-- The PD output `Kp * error + Kd * (error - previous_error) / dt`. -/
def pdOutput (error previous_error : ℚ) : ℚ :=
  Kp * error + Kd * ((error - previous_error) / dt)

/-- The current limitation: clamp in floating point to
`[MIN_CURRENT, MAX_CURRENT]`, then convert to `int16_t`. -/
def limitCurrent (output_current : ℚ) : Int :=
  wrapInt16 (truncToInt (max (min output_current (MAX_CURRENT : ℚ)) (MIN_CURRENT : ℚ)))

/-- One pass through the body of `while (true)` in `main`: tick number `i`,
whose first transaction is number `k` of the run. -/
def tick (env : Env) (p : Params) (i k : Nat) (st : LoopState) : Step LoopState :=
  if env.stop i then
    Step.exit [Event.stopFlagRead true]
  else
    let elapsed : ℚ := (env.clockMs i : ℚ) / 1000
    if elapsed > duration then
      Step.exit [Event.stopFlagRead false]
    else
      let target_position1 := calculateTargetPosition p.start_position1 p.goal_position1 elapsed duration
      let target_position2 := calculateTargetPosition p.start_position2 p.goal_position2 elapsed duration
      let m1 := getMotorData env.bus k DXL_ID1
      let m2 := getMotorData env.bus (k + 2) DXL_ID2
      let present_position1 := m1.1.1
      let current1 := m1.1.2
      let present_position2 := m2.1.1
      let current2 := m2.1.2
      let error1 : ℚ := (wrapInt32 (target_position1 - present_position1) : Int)
      let error2 : ℚ := (wrapInt32 (target_position2 - present_position2) : Int)
      let output_current1 := pdOutput error1 st.previous_error1
      let output_current2 := pdOutput error2 st.previous_error2
      let goal_current1 := limitCurrent output_current1
      let goal_current2 := limitCurrent output_current2
      Step.next
        ([Event.stopFlagRead false] ++ m1.2 ++ m2.2 ++
          [Event.write2 DXL_ID1 ADDR_GOAL_CURRENT goal_current1,
           Event.write2 DXL_ID2 ADDR_GOAL_CURRENT goal_current2,
           Event.row elapsed present_position1 current1 present_position2 current2])
        { previous_error1 := error1, previous_error2 := error2 }

/-- The loop `while (true)` of `main` from tick `i` on, run for at most `fuel`
ticks: the events of the loop once it is left, `none` while it is not. A tick
that runs its body issues six transactions. -/
def controlLoop (env : Env) (p : Params) : Nat → Nat → Nat → LoopState → Option (List Event)
  | 0, _, _, _ => none
  | fuel + 1, i, k, st =>
    match tick env p i k st with
    | Step.exit ev => some ev
    | Step.next ev st' => (controlLoop env p fuel (i + 1) (k + 6) st').map (fun rest => ev ++ rest)

/-- The writes after the loop: goal current 0 to both actuators, then torque
disable to both; their results are only reported on the console. -/
def shutdownWrites : List Event :=
  [Event.write2 DXL_ID1 ADDR_GOAL_CURRENT 0,
   Event.write2 DXL_ID2 ADDR_GOAL_CURRENT 0,
   Event.write1 DXL_ID1 ADDR_TORQUE_ENABLE TORQUE_DISABLE,
   Event.write1 DXL_ID2 ADDR_TORQUE_ENABLE TORQUE_DISABLE]

/-- The start and goal positions computed by `main` from the two initial
`getMotorData` calls (transactions 10 to 13 of the run). -/
def initialParams (bus : Bus) : Params :=
  let start_position1 := (getMotorData bus 10 DXL_ID1).1.1
  let start_position2 := (getMotorData bus 12 DXL_ID2).1.1
  { start_position1 := start_position1
    goal_position1 := wrapInt32 (start_position1 + wrapInt32 (truncToInt ((4096 / 360 : ℚ) * 90)))
    start_position2 := start_position2
    goal_position2 := wrapInt32 (start_position2 - wrapInt32 (truncToInt ((4096 / 360 : ℚ) * 90))) }

/-- The events issued by `main` before the loop when both setups succeed. -/
def preLoop (bus : Bus) : List Event :=
  (setupMotor bus 0 DXL_ID1).2 ++ (setupMotor bus 5 DXL_ID2).2 ++
    (getMotorData bus 10 DXL_ID1).2 ++ (getMotorData bus 12 DXL_ID2).2

/-- The function `main` of `current_control2.cpp`: the events of the run, `none`
when the loop is not left within `fuel` ticks. -/
def main (env : Env) (fuel : Nat) : Option (List Event) :=
  if !env.openPort then some []
  else if !env.setBaudRate then some [Event.closePort]
  else
    let s1 := setupMotor env.bus 0 DXL_ID1
    if !s1.1 then some (s1.2 ++ [Event.closePort])
    else
      let s2 := setupMotor env.bus 5 DXL_ID2
      if !s2.1 then some (s1.2 ++ s2.2 ++ [Event.closePort])
      else
        let p := initialParams env.bus
        let st : LoopState := { previous_error1 := 0, previous_error2 := 0 }
        match controlLoop env p fuel 0 14 st with
        | none => none
        | some loopEvents =>
          some (preLoop env.bus ++ loopEvents ++ shutdownWrites ++
            (if env.inputThreadEnds then [Event.closePort] else []))

/-- The run reaches the loop: the port opens, the baud rate is set and both
`setupMotor` calls return true. -/
def entersLoop (env : Env) : Bool :=
  env.openPort && env.setBaudRate &&
    (setupMotor env.bus 0 DXL_ID1).1 && (setupMotor env.bus 5 DXL_ID2).1

/-- An event is a write to the torque-enable register. -/
def isTorqueWrite : Event → Bool
  | Event.write1 _ addr _ => addr == ADDR_TORQUE_ENABLE
  | Event.write2 _ addr _ => addr == ADDR_TORQUE_ENABLE
  | _ => false

/-- An event is a stop-flag read. -/
def isStopFlagRead : Event → Bool
  | Event.stopFlagRead _ => true
  | _ => false

/-- An event is a telemetry row. -/
def isRow : Event → Bool
  | Event.row _ _ _ _ _ => true
  | _ => false

/-- An event is a register read. -/
def isRead : Event → Bool
  | Event.read4 _ _ => true
  | Event.read2 _ _ => true
  | _ => false

/-- An event is a write to the goal-current register. -/
def isGoalCurrentWrite : Event → Bool
  | Event.write1 _ addr _ => addr == ADDR_GOAL_CURRENT
  | Event.write2 _ addr _ => addr == ADDR_GOAL_CURRENT
  | _ => false

/-- The position error of actuator 1 at tick `i`, written from the claim, from
the clock and the bus alone: the target at the elapsed time of tick `i` minus
the position read in that tick (transaction `14 + 6 * i` of the run). -/
def specError1 (env : Env) (p : Params) (i : Nat) : ℚ :=
  ((wrapInt32 (calculateTargetPosition p.start_position1 p.goal_position1
    ((env.clockMs i : ℚ) / 1000) duration - wrapInt32 (env.bus (14 + 6 * i)).data) : Int) : ℚ)

/-- The position error of actuator 2 at tick `i`, written from the claim: the
target at the elapsed time of tick `i` minus the position read in that tick
(transaction `14 + 6 * i + 2` of the run). -/
def specError2 (env : Env) (p : Params) (i : Nat) : ℚ :=
  ((wrapInt32 (calculateTargetPosition p.start_position2 p.goal_position2
    ((env.clockMs i : ℚ) / 1000) duration - wrapInt32 (env.bus (14 + 6 * i + 2)).data) : Int) : ℚ)

/-- The previous error of tick `i`, written from the claim: 0 at tick 0, the
error of the tick before afterwards. -/
def specPreviousError (error : Nat → ℚ) : Nat → ℚ
  | 0 => 0
  | i + 1 => error i

/-- The PD output `Kp * error + Kd * (error - previous_error) / dt` of actuator 1
at tick `i`, written from the claim. -/
def specOutput1 (env : Env) (p : Params) (i : Nat) : ℚ :=
  Kp * specError1 env p i +
    Kd * ((specError1 env p i - specPreviousError (specError1 env p) i) / dt)

/-- The PD output `Kp * error + Kd * (error - previous_error) / dt` of actuator 2
at tick `i`, written from the claim. -/
def specOutput2 (env : Env) (p : Params) (i : Nat) : ℚ :=
  Kp * specError2 env p i +
    Kd * ((specError2 env p i - specPreviousError (specError2 env p) i) / dt)

/-- The events of tick `i` when it runs its body, written from the claim: the
stop-flag read, the four reads, the two goal currents (the limited PD outputs)
and the telemetry row. -/
def specTickEvents (env : Env) (p : Params) (i : Nat) : List Event :=
  [Event.stopFlagRead false,
   Event.read4 1 132, Event.read2 1 126, Event.read4 2 132, Event.read2 2 126,
   Event.write2 1 102 (limitCurrent (specOutput1 env p i)),
   Event.write2 2 102 (limitCurrent (specOutput2 env p i)),
   Event.row ((env.clockMs i : ℚ) / 1000)
     (wrapInt32 (env.bus (14 + 6 * i)).data) (wrapInt16 (env.bus (14 + 6 * i + 1)).data)
     (wrapInt32 (env.bus (14 + 6 * i + 2)).data) (wrapInt16 (env.bus (14 + 6 * i + 2 + 1)).data)]

/-- The events of a loop that runs the bodies of the `n` ticks from tick `i` on
and is left at the top of tick `i + n`, written from the claim. -/
def specLoopEvents (env : Env) (p : Params) : Nat → Nat → List Event
  | i, 0 => [Event.stopFlagRead (env.stop i)]
  | i, n + 1 => specTickEvents env p i ++ specLoopEvents env p (i + 1) n

end CurrentControl2

/-! ## current.cpp -/

namespace Current

def DXL_ID : Nat := 1
def ADDR_CURRENT_LIMIT : Nat := 38
def OPERATING_MODE_CURRENT : Int := 0
def P_GAIN : ℚ := 1
def D_GAIN : ℚ := 1 / 10
def MAX_CURRENT : Int := 20
def TARGET_POSITION : Int := 1024
def DURATION : ℚ := 3

/-- The environment of a run of `main`: the results of `openPort` and
`setBaudRate`, the bus, the result of `kbhit()` at tick `i`, the value of
`elapsed_time` at tick `i`, the integer a conversion of a non-finite `double`
yields at tick `i`, and whether the CSV file opens. -/
structure Env where
  openPort : Bool
  setBaudRate : Bool
  bus : Bus
  kbhit : Nat → Bool
  clock : Nat → ℚ
  castUndef : Nat → Int
  fileOpens : Bool

/-- The variables carried from one tick to the next. -/
structure LoopState where
  previous_position : Int
  previous_time : ℚ
  data_log : List DataRecord

/-- The target of a tick: `initial_position + (int32_t)(TARGET_POSITION *
(elapsed_time / DURATION))`, limited above by `initial_position + TARGET_POSITION`. -/
def targetPosition (initial_position : Int) (elapsed_time : ℚ) : Int :=
  let target_position :=
    wrapInt32 (initial_position +
      wrapInt32 (truncToInt ((TARGET_POSITION : ℚ) * (elapsed_time / DURATION))))
  if target_position > wrapInt32 (initial_position + TARGET_POSITION) then
    wrapInt32 (initial_position + TARGET_POSITION)
  else
    target_position

/-- The divisor `elapsed_time - previous_time` of the velocity computation. -/
def velocityDivisor (elapsed_time previous_time : ℚ) : ℚ := elapsed_time - previous_time

/-- The value `(present_position - previous_position) / (elapsed_time - previous_time)`;
`none` stands for the non-finite result of a division by zero. -/
def velocity (present_position previous_position : Int) (elapsed_time previous_time : ℚ) :
    Option ℚ :=
  if velocityDivisor elapsed_time previous_time = 0 then none
  else some (((wrapInt32 (present_position - previous_position) : Int) : ℚ) /
    velocityDivisor elapsed_time previous_time)

/-- The real-valued PD output `P_GAIN * position_error - D_GAIN * velocity`. -/
def pdOutput (position_error : Int) (velocity : ℚ) : ℚ :=
  P_GAIN * (position_error : ℚ) - D_GAIN * velocity

/-- The two limiting statements applied to the `int16_t` variable `goal_current`. -/
def clampCurrent (goal_current : Int) : Int :=
  let g := if goal_current > MAX_CURRENT then MAX_CURRENT else goal_current
  if g < -MAX_CURRENT then -MAX_CURRENT else g

/-- The goal current for a finite velocity: the PD output converted to
`int16_t` (truncation, then reduction modulo 2^16), then limited. -/
def goalCurrent (position_error : Int) (velocity : ℚ) : Int :=
  clampCurrent (wrapInt16 (truncToInt (pdOutput position_error velocity)))

/-- The goal current of a tick: as `goalCurrent`, the conversion of a
non-finite PD output giving the 16-bit value `undef`. -/
def goalCurrentAt (undef : Int) (position_error : Int) : Option ℚ → Int
  | some v => goalCurrent position_error v
  | none => clampCurrent (wrapInt16 undef)

/-- The goal current of the specification, written from its words: the PD
output is clamped to `[-MAX_CURRENT, MAX_CURRENT]` first and truncated to an
integer second. -/
def specGoalCurrent (position_error : Int) (velocity : ℚ) : Int :=
  truncToInt (max (-(MAX_CURRENT : ℚ)) (min (MAX_CURRENT : ℚ) (pdOutput position_error velocity)))

/-- One pass through the body of `while (true)` in `main`: tick number `i`,
whose first transaction is number `k` of the run. -/
def tick (env : Env) (initial_position : Int) (i k : Nat) (st : LoopState) : Step LoopState :=
  if env.kbhit i then
    Step.exit []
  else
    let elapsed_time := env.clock i
    if elapsed_time ≥ DURATION then
      Step.exit []
    else
      let target_position := targetPosition initial_position elapsed_time
      let rd := Event.read4 DXL_ID ADDR_PRESENT_POSITION
      if (env.bus k).comm ≠ COMM_SUCCESS then
        Step.exit [rd]
      else
        let present_position := wrapInt32 (env.bus k).data
        let position_error := wrapInt32 (target_position - present_position)
        let goal_current := goalCurrentAt (env.castUndef i) position_error
          (velocity present_position st.previous_position elapsed_time st.previous_time)
        let wr := Event.write2 DXL_ID ADDR_GOAL_CURRENT goal_current
        if (env.bus (k + 1)).comm ≠ COMM_SUCCESS then
          Step.exit [rd, wr]
        else
          let rc := Event.read2 DXL_ID ADDR_PRESENT_CURRENT
          if (env.bus (k + 2)).comm ≠ COMM_SUCCESS then
            Step.exit [rd, wr, rc]
          else
            let present_current := wrapInt16 (env.bus (k + 2)).data
            Step.next [rd, wr, rc]
              { previous_position := present_position
                previous_time := elapsed_time
                data_log := st.data_log ++
                  [{ time := elapsed_time, current := present_current,
                     position := present_position }] }

/-- The loop `while (true)` of `main` from tick `i` on, run for at most `fuel`
ticks: the events of the loop and the final `data_log` once the loop is left,
`none` while it is not. A tick that runs to its end issues three transactions. -/
def controlLoop (env : Env) (initial_position : Int) :
    Nat → Nat → Nat → LoopState → Option (List Event × List DataRecord)
  | 0, _, _, _ => none
  | fuel + 1, i, k, st =>
    match tick env initial_position i k st with
    | Step.exit ev => some (ev, st.data_log)
    | Step.next ev st' =>
      (controlLoop env initial_position fuel (i + 1) (k + 3) st').map
        (fun rest => (ev ++ rest.1, rest.2))

/-- The transaction index and the loop variables at the top of tick `i` of the
loop of `main`, when every tick before `i` ran to its end: tick 0 starts at
transaction 4 with `previous_position = initial_position`, `previous_time = 0`
and an empty `data_log`. -/
def stateAt (env : Env) (initial_position : Int) : Nat → Option (Nat × LoopState)
  | 0 => some (4, { previous_position := initial_position, previous_time := 0, data_log := [] })
  | i + 1 =>
    match stateAt env initial_position i with
    | none => none
    | some (k, st) =>
      match tick env initial_position i k st with
      | Step.exit _ => none
      | Step.next _ st' => some (k + 3, st')

/-- The function `main` of `current.cpp`: the events of the run, `none` when
the loop is not left within `fuel` ticks. The outcomes of the operating-mode
write and of the torque-enable write are only reported on the console. -/
def main (env : Env) (fuel : Nat) : Option (List Event) :=
  if !env.openPort then some []
  else if !env.setBaudRate then some []
  else
    let w0 := Event.write1 DXL_ID ADDR_OPERATING_MODE OPERATING_MODE_CURRENT
    let w1 := Event.write1 DXL_ID ADDR_TORQUE_ENABLE TORQUE_ENABLE
    let w2 := Event.write2 DXL_ID ADDR_CURRENT_LIMIT MAX_CURRENT
    if (env.bus 2).comm ≠ COMM_SUCCESS then some [w0, w1, w2]
    else
      let r3 := Event.read4 DXL_ID ADDR_PRESENT_POSITION
      if (env.bus 3).comm ≠ COMM_SUCCESS then some [w0, w1, w2, r3]
      else
        let initial_position := wrapInt32 (env.bus 3).data
        let st : LoopState :=
          { previous_position := initial_position, previous_time := 0, data_log := [] }
        match controlLoop env initial_position fuel 0 4 st with
        | none => none
        | some (loopEvents, data_log) =>
          some ([w0, w1, w2, r3] ++ loopEvents ++
            [Event.write1 DXL_ID ADDR_TORQUE_ENABLE TORQUE_DISABLE, Event.closePort] ++
            (if env.fileOpens then [Event.saveCsv data_log] else []))

end Current

/-! ## error.cpp -/

namespace ErrorCpp

def DXL_ID : Nat := 1
def ADDR_CURRENT_LIMIT : Nat := 38
def OPERATING_MODE_CURRENT : Int := 0
def TARGET_POSITION : Int := 1024
def DURATION : ℚ := 3

/-- The environment of a run of `main`: the results of `openPort` and
`setBaudRate`, the bus, the value of `elapsed_time` at iteration `i`, and
whether the CSV file opens. -/
structure Env where
  openPort : Bool
  setBaudRate : Bool
  bus : Bus
  clock : Nat → ℚ
  fileOpens : Bool

/-- The target of an iteration: `initial_position + (int32_t)(TARGET_POSITION *
(elapsed_time / DURATION))`, limited above by `initial_position + TARGET_POSITION`. -/
def targetPosition (initial_position : Int) (elapsed_time : ℚ) : Int :=
  let target_position :=
    wrapInt32 (initial_position +
      wrapInt32 (truncToInt ((TARGET_POSITION : ℚ) * (elapsed_time / DURATION))))
  if target_position > wrapInt32 (initial_position + TARGET_POSITION) then
    wrapInt32 (initial_position + TARGET_POSITION)
  else
    target_position

/-- One pass through the body of the `for` loop of `main`: iteration `i`, whose
first transaction is number `k` of the run; the state is `data_log`. -/
def tick (env : Env) (initial_position : Int) (i k : Nat) (data_log : List DataRecord) :
    Step (List DataRecord) :=
  let elapsed_time := env.clock i
  let target_position := targetPosition initial_position elapsed_time
  let wp := Event.write4 DXL_ID ADDR_PRESENT_POSITION target_position
  if (env.bus k).comm ≠ COMM_SUCCESS then Step.exit [wp]
  else if (env.bus k).error ≠ 0 then Step.exit [wp]
  else
    let rc := Event.read2 DXL_ID ADDR_PRESENT_CURRENT
    if (env.bus (k + 1)).comm ≠ COMM_SUCCESS then Step.exit [wp, rc]
    else if (env.bus (k + 1)).error ≠ 0 then Step.exit [wp, rc]
    else
      let present_current := wrapInt16 (env.bus (k + 1)).data
      let rp := Event.read4 DXL_ID ADDR_PRESENT_POSITION
      if (env.bus (k + 2)).comm ≠ COMM_SUCCESS then Step.exit [wp, rc, rp]
      else if (env.bus (k + 2)).error ≠ 0 then Step.exit [wp, rc, rp]
      else
        let present_position := wrapInt32 (env.bus (k + 2)).data
        Step.next [wp, rc, rp]
          (data_log ++
            [{ time := elapsed_time, current := present_current, position := present_position }])

/-- The loop `for (int i = 0; i < 300; i++)` of `main` with `n` iterations left,
from iteration `i` on: the events of the loop and the final `data_log`. -/
def controlLoop (env : Env) (initial_position : Int) :
    Nat → Nat → Nat → List DataRecord → List Event × List DataRecord
  | 0, _, _, data_log => ([], data_log)
  | n + 1, i, k, data_log =>
    match tick env initial_position i k data_log with
    | Step.exit ev => (ev, data_log)
    | Step.next ev data_log' =>
      let rest := controlLoop env initial_position n (i + 1) (k + 3) data_log'
      (ev ++ rest.1, rest.2)

/-- The function `main` of `error.cpp`: the events of the run. The outcomes of
the operating-mode write and of the torque-enable write are only reported on
the console. -/
def main (env : Env) : List Event :=
  if !env.openPort then []
  else if !env.setBaudRate then []
  else
    let w0 := Event.write1 DXL_ID ADDR_OPERATING_MODE OPERATING_MODE_CURRENT
    let w1 := Event.write1 DXL_ID ADDR_TORQUE_ENABLE TORQUE_ENABLE
    let w2 := Event.write2 DXL_ID ADDR_CURRENT_LIMIT 10
    if (env.bus 2).comm ≠ COMM_SUCCESS then [w0, w1, w2]
    else
      let w3 := Event.write2 DXL_ID ADDR_GOAL_CURRENT 3
      if (env.bus 3).comm ≠ COMM_SUCCESS then [w0, w1, w2, w3]
      else
        let r4 := Event.read4 DXL_ID ADDR_PRESENT_POSITION
        if (env.bus 4).comm ≠ COMM_SUCCESS then [w0, w1, w2, w3, r4]
        else
          let initial_position := wrapInt32 (env.bus 4).data
          let loop := controlLoop env initial_position 300 0 5 []
          [w0, w1, w2, w3, r4] ++ loop.1 ++
            [Event.write1 DXL_ID ADDR_TORQUE_ENABLE TORQUE_DISABLE, Event.closePort] ++
            (if env.fileOpens then [Event.saveCsv loop.2] else [])

/-- The run reaches the loop: the port opens, the baud rate is set, and the
current-limit write, the goal-current write and the initial position read
return `COMM_SUCCESS`. -/
def entersLoop (env : Env) : Bool :=
  env.openPort && env.setBaudRate && (env.bus 2).comm == COMM_SUCCESS &&
    (env.bus 3).comm == COMM_SUCCESS && (env.bus 4).comm == COMM_SUCCESS

end ErrorCpp

/-- The run of `current.cpp` reaches the loop: the port opens, the baud rate is
set, and the current-limit write and the initial position read return
`COMM_SUCCESS`. -/
def Current.entersLoop (env : Current.Env) : Bool :=
  env.openPort && env.setBaudRate && (env.bus 2).comm == COMM_SUCCESS &&
    (env.bus 3).comm == COMM_SUCCESS

/-! ## Concrete runs used below -/

/-- A successful reply carrying `data`. -/
def okReply (data : Int) : Reply := { comm := COMM_SUCCESS, error := 0, data := data }

/-- A transport failure (`COMM_RX_TIMEOUT`). -/
def failReply : Reply := { comm := -3001, error := 0, data := 0 }

/-- A run of `current.cpp` in which every transaction succeeds: the initial
position is 0, the position read in the loop is 500, the elapsed time at tick 0
is 1.5 s and a key is pressed before tick 1. -/
def Current.envNominal : Current.Env :=
  { openPort := true
    setBaudRate := true
    bus := fun n => if n = 4 then okReply 500 else okReply 0
    kbhit := fun i => decide (1 ≤ i)
    clock := fun _ => 3 / 2
    castUndef := fun _ => 0
    fileOpens := true }

/-- The run `Current.envNominal`, except that the operating-mode write
(transaction 0) returns a transport failure. -/
def Current.envModeWriteFails : Current.Env :=
  { openPort := true
    setBaudRate := true
    bus := fun n => if n = 0 then failReply else if n = 4 then okReply 500 else okReply 0
    kbhit := fun i => decide (1 ≤ i)
    clock := fun _ => 3 / 2
    castUndef := fun _ => 0
    fileOpens := true }

/-- A run of `current_control2.cpp` in which every transaction succeeds and
reads 0; the stop flag is seen set at the top of tick 1. -/
def CurrentControl2.envNominal : CurrentControl2.Env :=
  { openPort := true
    setBaudRate := true
    bus := fun _ => okReply 0
    stop := fun i => decide (1 ≤ i)
    clockMs := fun i => 10 * (i : Int)
    inputThreadEnds := true }

/-- A run of `current_control2.cpp` in which the five writes of
`setupMotor` for actuator 1 succeed and the first write of `setupMotor` for
actuator 2 (transaction 5) returns a transport failure. -/
def CurrentControl2.envSecondSetupFails : CurrentControl2.Env :=
  { openPort := true
    setBaudRate := true
    bus := fun n => if n = 5 then failReply else okReply 0
    stop := fun _ => false
    clockMs := fun i => 10 * (i : Int)
    inputThreadEnds := true }

/-- A run of `current_control2.cpp` in which the position read of actuator 1
in tick 0 (transaction 14) returns a transport failure; everything else
succeeds and the stop flag is seen set at the top of tick 1. -/
def CurrentControl2.envReadFails : CurrentControl2.Env :=
  { openPort := true
    setBaudRate := true
    bus := fun n => if n = 14 then failReply else okReply 0
    stop := fun i => decide (1 ≤ i)
    clockMs := fun i => 10 * (i : Int)
    inputThreadEnds := true }

/-- A run of `current.cpp` in which the position read of tick 0 (transaction 4)
returns a transport failure; no key is ever pressed and the clock readings
0.01 s, 0.02 s, ... stay below `DURATION` for the first ticks. -/
def Current.envReadFails : Current.Env :=
  { openPort := true
    setBaudRate := true
    bus := fun n => if n = 4 then failReply else okReply 0
    kbhit := fun _ => false
    clock := fun i => ((i : ℚ) + 1) / 100
    castUndef := fun _ => 0
    fileOpens := true }

/-- A run of `current.cpp` with the non-decreasing clock readings 1 s, 1 s, ...:
every transaction succeeds and reads 0, a key is pressed before tick 2, and the
conversion of a non-finite `double` to `int16_t` yields 7. -/
def Current.envConstantClock : Current.Env :=
  { openPort := true
    setBaudRate := true
    bus := fun _ => okReply 0
    kbhit := fun i => decide (2 ≤ i)
    clock := fun _ => 1
    castUndef := fun _ => 7
    fileOpens := true }

/-- A run of `current.cpp` with the increasing clock readings 0.01 s, 0.02 s,
...: every transaction succeeds and reads 0, a key is pressed before tick 2. -/
def Current.envIncreasingClock : Current.Env :=
  { openPort := true
    setBaudRate := true
    bus := fun _ => okReply 0
    kbhit := fun i => decide (2 ≤ i)
    clock := fun i => ((i : ℚ) + 1) / 100
    castUndef := fun _ => 0
    fileOpens := true }

/-- A run of `error.cpp` in which iteration 0 succeeds (position 7, current 5)
and the position write of iteration 1 (transaction 8) returns a transport
failure. -/
def ErrorCpp.envShort : ErrorCpp.Env :=
  { openPort := true
    setBaudRate := true
    bus := fun n => if n = 8 then failReply else if n = 6 then okReply 5
      else if n = 7 then okReply 7 else okReply 0
    clock := fun i => ((i : ℚ) + 1) / 100
    fileOpens := true }

/-- A run of `current_control2.cpp` in which every transaction succeeds and
reads 0, the stop flag is never set, and the elapsed time is exactly 1000 ms at
tick 0 and 1010 ms, 1020 ms, ... at the following ticks. -/
def CurrentControl2.envAtDuration : CurrentControl2.Env :=
  { openPort := true
    setBaudRate := true
    bus := fun _ => okReply 0
    stop := fun _ => false
    clockMs := fun i => 1000 + 10 * (i : Int)
    inputThreadEnds := true }

/-- A run of `current_control2.cpp` in which every transaction succeeds and
reads 0 (so each actuator stays at its start position 0), the clock was set
back so that the elapsed times are -500 ms, -490 ms, ..., and the stop flag is
seen set at the top of tick 1. -/
def CurrentControl2.envClockSetBack : CurrentControl2.Env :=
  { openPort := true
    setBaudRate := true
    bus := fun _ => okReply 0
    stop := fun i => decide (1 ≤ i)
    clockMs := fun i => 10 * (i : Int) - 500
    inputThreadEnds := true }

/-- A run of `current_control2.cpp` with three ticks at 0 ms, 10 ms and 20 ms
and the stop flag seen set at the top of tick 3. Every transaction succeeds;
both start positions are 0, actuator 2 stays at 0, and actuator 1 is read at 0,
9 and 19 in the three ticks (transactions 14, 20 and 26). -/
def CurrentControl2.envMoving : CurrentControl2.Env :=
  { openPort := true
    setBaudRate := true
    bus := fun n => if n = 20 then okReply 9 else if n = 26 then okReply 19 else okReply 0
    stop := fun i => decide (3 ≤ i)
    clockMs := fun i => 10 * (i : Int)
    inputThreadEnds := true }

/-! ## Lemmas on machine arithmetic -/

theorem wrapInt32_of_isInt32 {z : Int} (h : isInt32 z) : wrapInt32 z = z := by
  unfold isInt32 at h
  unfold wrapInt32
  omega

theorem wrapInt16_bounds (z : Int) : -32768 ≤ wrapInt16 z ∧ wrapInt16 z ≤ 32767 := by
  unfold wrapInt16
  omega

theorem wrapInt16_of_range {z : Int} (h1 : -32768 ≤ z) (h2 : z ≤ 32767) : wrapInt16 z = z := by
  unfold wrapInt16
  omega

theorem truncToInt_of_nonneg {x : ℚ} (h : 0 ≤ x) : truncToInt x = ⌊x⌋ := by
  unfold truncToInt
  rw [if_pos (Rat.num_nonneg.mpr h), Rat.floor_def]

theorem truncToInt_of_nonpos {x : ℚ} (h : x ≤ 0) : truncToInt x = ⌈x⌉ := by
  have hfl : ⌊-x⌋ = (-x.num) / (x.den : Int) := by
    rw [Rat.floor_def, Rat.neg_num, Rat.neg_den]
  have hceil : ⌈x⌉ = -((-x.num) / (x.den : Int)) := by
    rw [← hfl, Int.floor_neg, neg_neg]
  unfold truncToInt
  split_ifs with h0
  · have hx : x = 0 := le_antisymm h (Rat.num_nonneg.mp h0)
    subst hx
    simp
  · exact hceil.symm

theorem truncToInt_intCast (z : Int) : truncToInt (z : ℚ) = z := by
  rcases le_total 0 z with h | h
  · rw [truncToInt_of_nonneg (by exact_mod_cast h), Int.floor_intCast]
  · rw [truncToInt_of_nonpos (by exact_mod_cast h), Int.ceil_intCast]

/-- Truncation toward zero keeps a value between two integers that bound it. -/
theorem truncToInt_mem_Icc {a b : Int} {x : ℚ} (ha : (a : ℚ) ≤ x) (hb : x ≤ (b : ℚ)) :
    a ≤ truncToInt x ∧ truncToInt x ≤ b := by
  rcases le_total 0 x with h | h
  · rw [truncToInt_of_nonneg h]
    refine ⟨Int.le_floor.mpr ha, ?_⟩
    have h1 : ((⌊x⌋ : Int) : ℚ) ≤ (b : ℚ) := le_trans (Int.floor_le x) hb
    exact_mod_cast h1
  · rw [truncToInt_of_nonpos h]
    refine ⟨?_, Int.ceil_le.mpr hb⟩
    have h1 : (a : ℚ) ≤ ((⌈x⌉ : Int) : ℚ) := le_trans ha (Int.le_ceil x)
    exact_mod_cast h1

/-- A convex combination of two integers lies between them. -/
theorem lerp_between (s g : Int) {r : ℚ} (h0 : 0 ≤ r) (h1 : r ≤ 1) :
    ((min s g : Int) : ℚ) ≤ (s : ℚ) + r * ((g - s : Int) : ℚ) ∧
      (s : ℚ) + r * ((g - s : Int) : ℚ) ≤ ((max s g : Int) : ℚ) := by
  push_cast
  rcases le_total s g with h | h
  · have hq : (s : ℚ) ≤ (g : ℚ) := by exact_mod_cast h
    rw [min_eq_left hq, max_eq_right hq]
    constructor <;> nlinarith
  · have hq : (g : ℚ) ≤ (s : ℚ) := by exact_mod_cast h
    rw [min_eq_right hq, max_eq_left hq]
    constructor <;> nlinarith

theorem isInt32_of_between {a b z : Int} (ha : isInt32 a) (hb : isInt32 b)
    (h1 : min a b ≤ z) (h2 : z ≤ max a b) : isInt32 z := by
  unfold isInt32 at *
  omega

/-- Inside the profile (`0 ≤ t < duration`) and without overflow of
`goal - start`, the code computes the truncated interpolation, which lies
between `start` and `goal`. -/
theorem calculateTargetPosition_inside (start goal : Int) (t duration : ℚ)
    (hs : isInt32 start) (hg : isInt32 goal) (hd : isInt32 (goal - start))
    (ht0 : 0 ≤ t) (ht1 : t < duration) :
    calculateTargetPosition start goal t duration
        = truncToInt ((start : ℚ) + (t / duration) * ((goal - start : Int) : ℚ)) ∧
      min start goal ≤ calculateTargetPosition start goal t duration ∧
      calculateTargetPosition start goal t duration ≤ max start goal := by
  have hdur : 0 < duration := lt_of_le_of_lt ht0 ht1
  have hr0 : 0 ≤ t / duration := div_nonneg ht0 hdur.le
  have hr1 : t / duration ≤ 1 := (div_le_one hdur).mpr ht1.le
  obtain ⟨hlo, hhi⟩ := lerp_between start goal hr0 hr1
  obtain ⟨h1, h2⟩ := truncToInt_mem_Icc hlo hhi
  have hcode : calculateTargetPosition start goal t duration
      = truncToInt ((start : ℚ) + (t / duration) * ((goal - start : Int) : ℚ)) := by
    unfold calculateTargetPosition
    rw [if_neg (not_le.mpr ht1)]
    simp only [wrapInt32_of_isInt32 hd]
    exact wrapInt32_of_isInt32 (isInt32_of_between hs hg h1 h2)
  rw [hcode]
  exact ⟨rfl, h1, h2⟩

/-! ## Claims on the trajectory generator -/

/-- C1: with `duration > 0`, `start`, `goal` and `goal - start` in the `int32_t`
range, for every `t` with `0 ≤ t ≤ duration` the target lies between `start`
and `goal` inclusive, and at `t = duration` it is exactly `goal`. -/
theorem C1_target_between_and_exact_at_end (start goal : Int) (t duration : ℚ)
    (hs : isInt32 start) (hg : isInt32 goal) (hd : isInt32 (goal - start))
    (hdur : 0 < duration) (ht0 : 0 ≤ t) (ht1 : t ≤ duration) :
    (min start goal ≤ calculateTargetPosition start goal t duration ∧
      calculateTargetPosition start goal t duration ≤ max start goal) ∧
    calculateTargetPosition start goal duration duration = goal := by
  refine ⟨?_, by simp [calculateTargetPosition]⟩
  rcases lt_or_eq_of_le ht1 with h | h
  · exact (calculateTargetPosition_inside start goal t duration hs hg hd ht0 h).2
  · subst h
    simp [calculateTargetPosition]

/-- Witness for C1: start 100, goal -924, duration 1, t = 1/3. -/
theorem C1_witness :
    (min (100 : Int) (-924) ≤ calculateTargetPosition 100 (-924) (1/3) 1 ∧
      calculateTargetPosition 100 (-924) (1/3) 1 ≤ max (100 : Int) (-924)) ∧
    calculateTargetPosition 100 (-924) 1 1 = -924 :=
  C1_target_between_and_exact_at_end 100 (-924) (1/3) 1
    (by unfold isInt32; decide) (by unfold isInt32; decide) (by unfold isInt32; decide)
    (by norm_num) (by norm_num) (by norm_num)

/-- C2 (as stated, refuted): at `t = -1` with `start = 0`, `goal = 10`,
`duration = 1` the code returns `-10`, while the clamped formula of the claim
gives `start = 0`: the code has no lower clamp and leaves the interval. -/
theorem C2_counterexample :
    calculateTargetPosition 0 10 (-1) 1 = -10 ∧ specTarget 0 10 (-1) 1 = 0 ∧
      calculateTargetPosition 0 10 (-1) 1 ≠ specTarget 0 10 (-1) 1 := by
  have h1 : calculateTargetPosition 0 10 (-1) 1 = -10 := by
    norm_num [calculateTargetPosition, truncToInt, wrapInt32]
  have h2 : specTarget 0 10 (-1) 1 = 0 := by
    norm_num [specTarget, truncToInt]
  refine ⟨h1, h2, ?_⟩
  rw [h1, h2]
  decide

/-- C2 (amended): with `start`, `goal` and `goal - start` in the `int32_t` range
and `duration > 0`, for every `t ≥ 0` (also `t > duration`) the code equals
`start + clamp(t/duration, 0, 1) * (goal - start)` truncated; it returns `start`
at `t = 0`, `goal` for every time `≥ duration`, and stays between `start` and
`goal`. -/
theorem C2_target_formula_from_time_zero (start goal : Int) (t duration : ℚ)
    (hs : isInt32 start) (hg : isInt32 goal) (hd : isInt32 (goal - start))
    (hdur : 0 < duration) (ht0 : 0 ≤ t) :
    calculateTargetPosition start goal t duration = specTarget start goal t duration ∧
    calculateTargetPosition start goal 0 duration = start ∧
    (∀ u : ℚ, duration ≤ u → calculateTargetPosition start goal u duration = goal) ∧
    min start goal ≤ calculateTargetPosition start goal t duration ∧
    calculateTargetPosition start goal t duration ≤ max start goal := by
  have hend : ∀ u : ℚ, duration ≤ u → calculateTargetPosition start goal u duration = goal := by
    intro u hu
    unfold calculateTargetPosition
    rw [if_pos hu]
  have hzero : calculateTargetPosition start goal 0 duration = start := by
    have h := (calculateTargetPosition_inside start goal 0 duration hs hg hd le_rfl hdur).1
    rw [h]
    simp [truncToInt_intCast]
  refine ⟨?_, hzero, hend, ?_⟩
  · rcases lt_or_le t duration with h | h
    · rw [(calculateTargetPosition_inside start goal t duration hs hg hd ht0 h).1]
      unfold specTarget
      have hr0 : 0 ≤ t / duration := div_nonneg ht0 hdur.le
      have hr1 : t / duration ≤ 1 := (div_le_one hdur).mpr h.le
      rw [min_eq_right hr1, max_eq_right hr0]
    · rw [hend t h]
      unfold specTarget
      have hr1 : 1 ≤ t / duration := (one_le_div hdur).mpr h
      rw [min_eq_left hr1, max_eq_right zero_le_one]
      have hx : (start : ℚ) + 1 * ((goal - start : Int) : ℚ) = ((goal : Int) : ℚ) := by
        push_cast
        ring
      rw [hx, truncToInt_intCast]
  · rcases lt_or_le t duration with h | h
    · exact (calculateTargetPosition_inside start goal t duration hs hg hd ht0 h).2
    · rw [hend t h]
      exact ⟨min_le_right _ _, le_max_right _ _⟩

/-- Witness for the amended C2: start 0, goal 1024, duration 1, t = 3/2. -/
theorem C2_witness :
    calculateTargetPosition 0 1024 (3/2) 1 = specTarget 0 1024 (3/2) 1 ∧
    calculateTargetPosition 0 1024 0 1 = 0 ∧
    (∀ u : ℚ, (1 : ℚ) ≤ u → calculateTargetPosition 0 1024 u 1 = 1024) ∧
    min (0 : Int) 1024 ≤ calculateTargetPosition 0 1024 (3/2) 1 ∧
    calculateTargetPosition 0 1024 (3/2) 1 ≤ max (0 : Int) 1024 :=
  C2_target_formula_from_time_zero 0 1024 (3/2) 1
    (by unfold isInt32; decide) (by unfold isInt32; decide) (by unfold isInt32; decide)
    (by norm_num) (by norm_num)

/-! ## Claims on the PD loop of current.cpp -/

theorem Current.clampCurrent_bounds (g : Int) :
    -Current.MAX_CURRENT ≤ Current.clampCurrent g ∧
      Current.clampCurrent g ≤ Current.MAX_CURRENT := by
  unfold Current.clampCurrent Current.MAX_CURRENT
  simp only
  split_ifs <;> omega

theorem Current.goalCurrentAt_bounds (undef position_error : Int) (v : Option ℚ) :
    -Current.MAX_CURRENT ≤ Current.goalCurrentAt undef position_error v ∧
      Current.goalCurrentAt undef position_error v ≤ Current.MAX_CURRENT := by
  cases v with
  | none => exact Current.clampCurrent_bounds _
  | some v => exact Current.clampCurrent_bounds _

/-- C3: in the loop of `current.cpp`, whatever the environment, the tick and
the loop state (hence whatever the target, the measured position and the
velocity), every value passed to a 2-byte write during a tick, the goal-current
write being the only one, lies in `[-MAX_CURRENT, MAX_CURRENT] = [-20, 20]`. -/
theorem C3_goal_current_within_limit (env : Current.Env) (initial_position : Int) (i k : Nat)
    (st : Current.LoopState) (id addr : Nat) (value : Int)
    (h : Event.write2 id addr value ∈ (Current.tick env initial_position i k st).events) :
    addr = ADDR_GOAL_CURRENT ∧ Current.MAX_CURRENT = 20 ∧
      -Current.MAX_CURRENT ≤ value ∧ value ≤ Current.MAX_CURRENT := by
  unfold Current.tick at h
  simp only [] at h
  split_ifs at h <;>
    simp only [Step.events, List.mem_cons, List.mem_singleton, List.not_mem_nil, or_false,
      Event.write2.injEq, false_or, reduceCtorEq] at h
  all_goals
    obtain ⟨-, rfl, rfl⟩ := h
    exact ⟨rfl, rfl, Current.goalCurrentAt_bounds _ _ _⟩


/-- Witness for C3: in the run `Current.envNominal` the goal current written in
tick 0 is `-20`. -/
theorem C3_witness :
    (102 : Nat) = ADDR_GOAL_CURRENT ∧ Current.MAX_CURRENT = 20 ∧
      -Current.MAX_CURRENT ≤ (-20 : Int) ∧ (-20 : Int) ≤ Current.MAX_CURRENT :=
  C3_goal_current_within_limit Current.envNominal 0 0 4
    { previous_position := 0, previous_time := 0, data_log := [] } 1 102 (-20)
    (by
      norm_num [Current.tick, Current.envNominal, Step.events, okReply, COMM_SUCCESS,
        Current.DURATION, Current.targetPosition, Current.TARGET_POSITION, wrapInt32, wrapInt16,
        truncToInt, Current.goalCurrentAt, Current.velocity, Current.velocityDivisor,
        Current.goalCurrent, Current.pdOutput, Current.P_GAIN, Current.D_GAIN,
        Current.clampCurrent, Current.MAX_CURRENT, Current.DXL_ID, ADDR_GOAL_CURRENT])

theorem truncToInt_ge_of_le {a : Int} {x : ℚ} (h : (a : ℚ) ≤ x) : a ≤ truncToInt x :=
  (truncToInt_mem_Icc h (Int.le_ceil x)).1

theorem truncToInt_le_of_le {b : Int} {x : ℚ} (h : x ≤ (b : ℚ)) : truncToInt x ≤ b :=
  (truncToInt_mem_Icc (Int.floor_le x) h).2

/-- While the truncated PD output fits in `int16_t`, converting first and
limiting second gives the same goal current as limiting first and converting
second. -/
theorem Current.goalCurrent_eq_spec_of_int16 (position_error : Int) (velocity : ℚ)
    (h1 : -32768 ≤ truncToInt (Current.pdOutput position_error velocity))
    (h2 : truncToInt (Current.pdOutput position_error velocity) ≤ 32767) :
    Current.goalCurrent position_error velocity =
      Current.specGoalCurrent position_error velocity := by
  unfold Current.goalCurrent Current.specGoalCurrent
  rw [wrapInt16_of_range h1 h2]
  generalize Current.pdOutput position_error velocity = x
  have hmax : ((Current.MAX_CURRENT : Int) : ℚ) = 20 := by norm_num [Current.MAX_CURRENT]
  rw [hmax]
  unfold Current.clampCurrent Current.MAX_CURRENT
  simp only
  rcases le_total (20 : ℚ) x with hx | hx
  · have ht : (20 : Int) ≤ truncToInt x := truncToInt_ge_of_le (by exact_mod_cast hx)
    rw [min_eq_left hx, max_eq_right (by norm_num)]
    have h20 : truncToInt (20 : ℚ) = 20 := by exact_mod_cast truncToInt_intCast 20
    rw [h20]
    split_ifs <;> omega
  · rw [min_eq_right hx]
    have ht : truncToInt x ≤ 20 := truncToInt_le_of_le (by exact_mod_cast hx)
    rcases le_total x (-20 : ℚ) with hy | hy
    · have ht' : truncToInt x ≤ -20 := truncToInt_le_of_le (by exact_mod_cast hy)
      rw [max_eq_left hy]
      have h20 : truncToInt (-20 : ℚ) = -20 := by exact_mod_cast truncToInt_intCast (-20)
      rw [h20]
      split_ifs <;> omega
    · have ht' : (-20 : Int) ≤ truncToInt x := truncToInt_ge_of_le (by exact_mod_cast hy)
      rw [max_eq_right hy]
      split_ifs <;> omega

/-- C4 (the code at the failing input): for a position error of 40000 and zero
velocity the PD output is 40000; the code converts it to `int16_t` first
(`40000 - 65536 = -25536`) and then limits it, sending `-20`, whereas clamping
first and converting second gives `+20`. -/
theorem C4_cast_before_clamp_flips_sign :
    Current.goalCurrent 40000 0 = -20 ∧ Current.specGoalCurrent 40000 0 = 20 := by
  constructor
  · norm_num [Current.goalCurrent, Current.pdOutput, Current.P_GAIN, Current.D_GAIN,
      truncToInt, wrapInt16, Current.clampCurrent, Current.MAX_CURRENT]
  · norm_num [Current.specGoalCurrent, Current.pdOutput, Current.P_GAIN, Current.D_GAIN,
      truncToInt, Current.MAX_CURRENT]

/-! ## Claims on `setupMotor` -/

theorem replyOk_iff (r : Reply) : replyOk r = true ↔ r.comm = COMM_SUCCESS ∧ r.error = 0 := by
  simp [replyOk]

theorem replyOk_of {r : Reply} (h1 : r.comm = COMM_SUCCESS) (h2 : r.error = 0) : replyOk r = true :=
  (replyOk_iff r).mpr ⟨h1, h2⟩

theorem replyOk_comm_ne {r : Reply} (h1 : ¬ r.comm = COMM_SUCCESS) : replyOk r = false := by
  simp [replyOk, h1]

theorem replyOk_error_ne {r : Reply} (h2 : ¬ r.error = 0) : replyOk r = false := by
  simp [replyOk, h2]

theorem okPrefix_five (bus : Bus) (k : Nat) :
    okPrefix bus k 5 =
      if replyOk (bus k) then
        if replyOk (bus (k + 1)) then
          if replyOk (bus (k + 2)) then
            if replyOk (bus (k + 3)) then
              if replyOk (bus (k + 4)) then 5 else 4
            else 3
          else 2
        else 1
      else 0 := by
  simp only [okPrefix, Nat.add_assoc, Nat.reduceAdd]
  split_ifs <;> rfl

theorem CurrentControl2.setupMotor_eq (bus : Bus) (k id : Nat) :
    CurrentControl2.setupMotor bus k id =
      (decide (okPrefix bus k 5 = 5), (CurrentControl2.setupWrites id).take (okPrefix bus k 5 + 1)) := by
  rw [okPrefix_five]
  unfold CurrentControl2.setupMotor CurrentControl2.setupWrites
  by_cases c0 : (bus k).comm = COMM_SUCCESS
  swap
  · rw [replyOk_comm_ne c0]; simp [c0]
  by_cases e0 : (bus k).error = 0
  swap
  · rw [replyOk_error_ne e0]; simp [c0, e0]
  rw [replyOk_of c0 e0]
  by_cases c1 : (bus (k + 1)).comm = COMM_SUCCESS
  swap
  · rw [replyOk_comm_ne c1]; simp [c0, e0, c1]
  by_cases e1 : (bus (k + 1)).error = 0
  swap
  · rw [replyOk_error_ne e1]; simp [c0, e0, c1, e1]
  rw [replyOk_of c1 e1]
  by_cases c2 : (bus (k + 2)).comm = COMM_SUCCESS
  swap
  · rw [replyOk_comm_ne c2]; simp [c0, e0, c1, e1, c2]
  by_cases e2 : (bus (k + 2)).error = 0
  swap
  · rw [replyOk_error_ne e2]; simp [c0, e0, c1, e1, c2, e2]
  rw [replyOk_of c2 e2]
  by_cases c3 : (bus (k + 3)).comm = COMM_SUCCESS
  swap
  · rw [replyOk_comm_ne c3]; simp [c0, e0, c1, e1, c2, e2, c3]
  by_cases e3 : (bus (k + 3)).error = 0
  swap
  · rw [replyOk_error_ne e3]; simp [c0, e0, c1, e1, c2, e2, c3, e3]
  rw [replyOk_of c3 e3]
  by_cases c4 : (bus (k + 4)).comm = COMM_SUCCESS
  swap
  · rw [replyOk_comm_ne c4]; simp [c0, e0, c1, e1, c2, e2, c3, e3, c4]
  by_cases e4 : (bus (k + 4)).error = 0
  swap
  · rw [replyOk_error_ne e4]; simp [c0, e0, c1, e1, c2, e2, c3, e3, c4, e4]
  rw [replyOk_of c4 e4]
  simp [c0, e0, c1, e1, c2, e2, c3, e3, c4, e4]


theorem forall_lt_five (P : Nat → Prop) :
    (∀ j, j < 5 → P j) ↔ (P 0 ∧ P 1 ∧ P 2 ∧ P 3 ∧ P 4) := by
  constructor
  · intro h
    exact ⟨h 0 (by omega), h 1 (by omega), h 2 (by omega), h 3 (by omega), h 4 (by omega)⟩
  · rintro ⟨h0, h1, h2, h3, h4⟩ j hj
    have : j = 0 ∨ j = 1 ∨ j = 2 ∨ j = 3 ∨ j = 4 := by omega
    rcases this with rfl | rfl | rfl | rfl | rfl <;> assumption

theorem forall_lt_four (P : Nat → Prop) :
    (∀ j, j < 4 → P j) ↔ (P 0 ∧ P 1 ∧ P 2 ∧ P 3) := by
  constructor
  · intro h
    exact ⟨h 0 (by omega), h 1 (by omega), h 2 (by omega), h 3 (by omega)⟩
  · rintro ⟨h0, h1, h2, h3⟩ j hj
    have : j = 0 ∨ j = 1 ∨ j = 2 ∨ j = 3 := by omega
    rcases this with rfl | rfl | rfl | rfl <;> assumption

theorem okPrefix_five_eq_five (bus : Bus) (k : Nat) :
    okPrefix bus k 5 = 5 ↔ ∀ j, j < 5 → replyOk (bus (k + j)) = true := by
  rw [forall_lt_five, okPrefix_five, Nat.add_zero]
  split_ifs <;> simp_all

theorem okPrefix_five_ge_four (bus : Bus) (k : Nat) :
    4 ≤ okPrefix bus k 5 ↔ ∀ j, j < 4 → replyOk (bus (k + j)) = true := by
  rw [forall_lt_four, okPrefix_five, Nat.add_zero]
  split_ifs <;> simp_all

theorem okPrefix_five_le (bus : Bus) (k : Nat) : okPrefix bus k 5 ≤ 5 := by
  rw [okPrefix_five]
  split_ifs <;> omega

/-- C5: `setupMotor` issues a prefix of the sequence torque-disable (64, 0),
operating mode (11, 0), goal current 0 (102), torque limit 500 (40),
torque-enable (64, 1): the writes up to and including the first one that
fails, and nothing after it; it returns true exactly when all five replies are
`COMM_SUCCESS` with a zero error byte; and the torque-enable write is issued
exactly when the four writes before it all succeeded. -/
theorem C5_setupMotor_sequence (bus : Bus) (k id : Nat) :
    CurrentControl2.setupWrites id =
      [Event.write1 id 64 0, Event.write1 id 11 0, Event.write2 id 102 0,
       Event.write2 id 40 500, Event.write1 id 64 1] ∧
    (CurrentControl2.setupMotor bus k id).2 =
      (CurrentControl2.setupWrites id).take (okPrefix bus k 5 + 1) ∧
    ((CurrentControl2.setupMotor bus k id).1 = true ↔
      ∀ j, j < 5 → replyOk (bus (k + j)) = true) ∧
    (Event.write1 id 64 1 ∈ (CurrentControl2.setupMotor bus k id).2 ↔
      ∀ j, j < 4 → replyOk (bus (k + j)) = true) := by
  refine ⟨rfl, ?_, ?_, ?_⟩
  · rw [CurrentControl2.setupMotor_eq]
  · rw [CurrentControl2.setupMotor_eq, ← okPrefix_five_eq_five]
    simp
  · rw [CurrentControl2.setupMotor_eq, ← okPrefix_five_ge_four]
    have hle := okPrefix_five_le bus k
    have hcases : okPrefix bus k 5 = 0 ∨ okPrefix bus k 5 = 1 ∨ okPrefix bus k 5 = 2 ∨
        okPrefix bus k 5 = 3 ∨ okPrefix bus k 5 = 4 ∨ okPrefix bus k 5 = 5 := by omega
    rcases hcases with h | h | h | h | h | h <;> rw [h] <;>
      simp [CurrentControl2.setupWrites, ADDR_TORQUE_ENABLE, ADDR_OPERATING_MODE,
        TORQUE_DISABLE, TORQUE_ENABLE]


/-! ## Claims on the runs of `main` -/

/-- C6 (the code at the failing input): when the operating-mode write of
`current.cpp` returns a transport failure, the run goes on into the loop: it
reads the present position and writes a goal current. -/
theorem C6_run_continues_after_failed_mode_write :
    Current.main Current.envModeWriteFails 2 =
      some [Event.write1 1 11 0, Event.write1 1 64 1, Event.write2 1 38 20, Event.read4 1 132,
        Event.read4 1 132, Event.write2 1 102 (-20), Event.read2 1 126,
        Event.write1 1 64 0, Event.closePort,
        Event.saveCsv [{ time := 3 / 2, current := 0, position := 500 }]] := by
  norm_num [Current.main, Current.controlLoop, Current.tick, Current.envModeWriteFails,
    Step.events, okReply, failReply, COMM_SUCCESS,
    Current.DURATION, Current.targetPosition, Current.TARGET_POSITION, wrapInt32, wrapInt16,
    truncToInt, Current.goalCurrentAt, Current.velocity, Current.velocityDivisor,
    Current.goalCurrent, Current.pdOutput, Current.P_GAIN, Current.D_GAIN,
    Current.clampCurrent, Current.MAX_CURRENT, Current.DXL_ID, ADDR_GOAL_CURRENT,
    ADDR_OPERATING_MODE, ADDR_TORQUE_ENABLE, ADDR_PRESENT_POSITION, ADDR_PRESENT_CURRENT,
    Current.ADDR_CURRENT_LIMIT, Current.OPERATING_MODE_CURRENT, TORQUE_ENABLE, TORQUE_DISABLE]

/-- C7 (the code at the failing input): when `setupMotor` succeeds for actuator 1
and its first write fails for actuator 2, `main` of `current_control2.cpp`
closes the port and returns: torque-enable was written to actuator 1 and no
torque-disable follows it. -/
theorem C7_early_return_leaves_torque_enabled :
    CurrentControl2.main CurrentControl2.envSecondSetupFails 1 =
      some [Event.write1 1 64 0, Event.write1 1 11 0, Event.write2 1 102 0,
        Event.write2 1 40 500, Event.write1 1 64 1, Event.write1 2 64 0, Event.closePort] := by
  simp [CurrentControl2.main, CurrentControl2.setupMotor, CurrentControl2.envSecondSetupFails,
    okReply, failReply, COMM_SUCCESS, ADDR_TORQUE_ENABLE, ADDR_OPERATING_MODE, ADDR_GOAL_CURRENT,
    CurrentControl2.ADDR_TORQUE_LIMIT, CurrentControl2.DXL_ID1, CurrentControl2.DXL_ID2,
    CurrentControl2.CURRENT_CONTROL_MODE, TORQUE_ENABLE, TORQUE_DISABLE]


/-- The events of a tick of `current_control2.cpp`, by cases on its two checks. -/
theorem CurrentControl2.tick_cases (env : CurrentControl2.Env) (p : CurrentControl2.Params)
    (i k : Nat) (st : CurrentControl2.LoopState) :
    (env.stop i = true ∧
      CurrentControl2.tick env p i k st = Step.exit [Event.stopFlagRead true]) ∨
    (env.stop i = false ∧ (env.clockMs i : ℚ) / 1000 > CurrentControl2.duration ∧
      CurrentControl2.tick env p i k st = Step.exit [Event.stopFlagRead false]) ∨
    (env.stop i = false ∧ ¬ (env.clockMs i : ℚ) / 1000 > CurrentControl2.duration ∧
      ∃ g1 g2 st',
        CurrentControl2.tick env p i k st =
          Step.next
            [Event.stopFlagRead false,
             Event.read4 1 132, Event.read2 1 126, Event.read4 2 132, Event.read2 2 126,
             Event.write2 1 102 g1, Event.write2 2 102 g2,
             Event.row ((env.clockMs i : ℚ) / 1000)
               (wrapInt32 (env.bus k).data) (wrapInt16 (env.bus (k + 1)).data)
               (wrapInt32 (env.bus (k + 2)).data) (wrapInt16 (env.bus (k + 2 + 1)).data)]
            st') := by
  unfold CurrentControl2.tick
  by_cases hs : env.stop i = true
  · left
    simp [hs]
  · have hs' : env.stop i = false := by simpa using hs
    right
    by_cases ht : (env.clockMs i : ℚ) / 1000 > CurrentControl2.duration
    · left
      simp [hs', ht]
    · right
      refine ⟨hs', ht, ?_⟩
      simp only [hs', if_neg ht]
      exact ⟨_, _, _, rfl⟩


theorem CurrentControl2.tick_no_torque_write (env : CurrentControl2.Env)
    (p : CurrentControl2.Params) (i k : Nat) (st : CurrentControl2.LoopState) :
    ∀ e ∈ (CurrentControl2.tick env p i k st).events, CurrentControl2.isTorqueWrite e = false := by
  rcases CurrentControl2.tick_cases env p i k st with ⟨-, h⟩ | ⟨-, -, h⟩ | ⟨-, -, g1, g2, st', h⟩ <;>
    rw [h] <;>
    simp [Step.events, CurrentControl2.isTorqueWrite, ADDR_TORQUE_ENABLE]

theorem CurrentControl2.tick_count_stopFlagRead (env : CurrentControl2.Env)
    (p : CurrentControl2.Params) (i k : Nat) (st : CurrentControl2.LoopState) :
    (CurrentControl2.tick env p i k st).events.countP CurrentControl2.isStopFlagRead = 1 := by
  rcases CurrentControl2.tick_cases env p i k st with ⟨-, h⟩ | ⟨-, -, h⟩ | ⟨-, -, g1, g2, st', h⟩ <;>
    rw [h] <;>
    simp [Step.events, CurrentControl2.isStopFlagRead, List.countP_cons]

theorem CurrentControl2.controlLoop_no_torque_write (env : CurrentControl2.Env)
    (p : CurrentControl2.Params) :
    ∀ (fuel i k : Nat) (st : CurrentControl2.LoopState) (ev : List Event),
      CurrentControl2.controlLoop env p fuel i k st = some ev →
      ∀ e ∈ ev, CurrentControl2.isTorqueWrite e = false := by
  intro fuel
  induction fuel with
  | zero =>
    intro i k st ev h
    simp [CurrentControl2.controlLoop] at h
  | succ fuel ih =>
    intro i k st ev h e he
    have hstep := CurrentControl2.tick_no_torque_write env p i k st
    unfold CurrentControl2.controlLoop at h
    cases htick : CurrentControl2.tick env p i k st with
    | exit ev0 =>
      rw [htick] at h hstep
      simp only [Option.some.injEq] at h
      subst h
      exact hstep e he
    | next ev0 st' =>
      rw [htick] at h hstep
      simp only [Option.map_eq_some'] at h
      obtain ⟨rest, hrest, rfl⟩ := h
      rcases List.mem_append.mp he with h1 | h1
      · exact hstep e h1
      · exact ih (i + 1) (k + 6) st' rest hrest e h1

/-- Once the stop flag is seen set at the top of tick `i + n`, or the elapsed
time of tick `i + n` is beyond `duration`, the loop started at tick `i` is left
after at most `n + 1` stop-flag reads. -/
theorem CurrentControl2.controlLoop_exits (env : CurrentControl2.Env)
    (p : CurrentControl2.Params) :
    ∀ (n fuel i k : Nat) (st : CurrentControl2.LoopState),
      (env.stop (i + n) = true ∨ (env.clockMs (i + n) : ℚ) / 1000 > CurrentControl2.duration) →
      n < fuel →
      ∃ ev, CurrentControl2.controlLoop env p fuel i k st = some ev ∧
        ev.countP CurrentControl2.isStopFlagRead ≤ n + 1 := by
  intro n
  induction n with
  | zero =>
    intro fuel i k st hexit hfuel
    obtain ⟨f, rfl⟩ : ∃ f, fuel = f + 1 := ⟨fuel - 1, by omega⟩
    rw [Nat.add_zero] at hexit
    rcases CurrentControl2.tick_cases env p i k st with ⟨-, h⟩ | ⟨-, -, h⟩ | ⟨hs, ht, -⟩
    · refine ⟨[Event.stopFlagRead true], ?_, ?_⟩
      · simp [CurrentControl2.controlLoop, h]
      · simp [CurrentControl2.isStopFlagRead]
    · refine ⟨[Event.stopFlagRead false], ?_, ?_⟩
      · simp [CurrentControl2.controlLoop, h]
      · simp [CurrentControl2.isStopFlagRead]
    · rcases hexit with hstop | htime
      · rw [hstop] at hs
        exact absurd hs (by simp)
      · exact absurd htime ht
  | succ n ih =>
    intro fuel i k st hexit hfuel
    obtain ⟨f, rfl⟩ : ∃ f, fuel = f + 1 := ⟨fuel - 1, by omega⟩
    have hcount := CurrentControl2.tick_count_stopFlagRead env p i k st
    cases htick : CurrentControl2.tick env p i k st with
    | exit ev0 =>
      rw [htick] at hcount
      refine ⟨ev0, ?_, ?_⟩
      · simp [CurrentControl2.controlLoop, htick]
      · simp only [Step.events] at hcount
        omega
    | next ev0 st' =>
      rw [htick] at hcount
      have hidx : i + (n + 1) = i + 1 + n := by omega
      rw [hidx] at hexit
      obtain ⟨rest, hrest, hle⟩ := ih f (i + 1) (k + 6) st' hexit (by omega)
      refine ⟨ev0 ++ rest, ?_, ?_⟩
      · simp [CurrentControl2.controlLoop, htick, hrest]
      · simp only [Step.events] at hcount
        rw [List.countP_append]
        omega

/-- C8: in every run of `main` of `current_control2.cpp` that enters the loop and
leaves it, whatever the replies of the bus, the run is the events before the
loop, the events of the loop, then exactly goal current 0 to actuator 1, goal
current 0 to actuator 2, torque-disable to actuator 1, torque-disable to
actuator 2, and last the closing of the port (once the input thread has
ended); no event of the loop is a write to the torque-enable register. -/
theorem C8_shutdown_writes_after_loop (env : CurrentControl2.Env) (fuel : Nat)
    (run : List Event) (hrun : CurrentControl2.main env fuel = some run)
    (henter : CurrentControl2.entersLoop env = true) :
    ∃ loopEvents,
      CurrentControl2.controlLoop env (CurrentControl2.initialParams env.bus) fuel 0 14
        { previous_error1 := 0, previous_error2 := 0 } = some loopEvents ∧
      run = CurrentControl2.preLoop env.bus ++ loopEvents ++
        [Event.write2 1 102 0, Event.write2 2 102 0, Event.write1 1 64 0, Event.write1 2 64 0] ++
        (if env.inputThreadEnds then [Event.closePort] else []) ∧
      (∀ e ∈ loopEvents, CurrentControl2.isTorqueWrite e = false) := by
  unfold CurrentControl2.entersLoop at henter
  simp only [Bool.and_eq_true] at henter
  obtain ⟨⟨⟨ho, hb⟩, h1⟩, h2⟩ := henter
  unfold CurrentControl2.main at hrun
  simp only [ho, hb, h1, h2, Bool.not_true, Bool.false_eq_true, if_false] at hrun
  cases hloop : CurrentControl2.controlLoop env (CurrentControl2.initialParams env.bus) fuel 0 14
      { previous_error1 := 0, previous_error2 := 0 } with
  | none =>
    rw [hloop] at hrun
    simp at hrun
  | some loopEvents =>
    rw [hloop] at hrun
    simp only [Option.some.injEq] at hrun
    refine ⟨loopEvents, rfl, ?_, ?_⟩
    · rw [← hrun]
      rfl
    · exact CurrentControl2.controlLoop_no_torque_write env _ fuel 0 14 _ loopEvents hloop


/-- Witness for C8: the run `CurrentControl2.envNominal`, left through the stop
flag at the top of tick 1. -/
theorem C8_witness :
    ∃ loopEvents,
      CurrentControl2.controlLoop CurrentControl2.envNominal
        (CurrentControl2.initialParams CurrentControl2.envNominal.bus) 2 0 14
        { previous_error1 := 0, previous_error2 := 0 } = some loopEvents ∧
      [Event.write1 1 64 0, Event.write1 1 11 0, Event.write2 1 102 0, Event.write2 1 40 500,
        Event.write1 1 64 1,
        Event.write1 2 64 0, Event.write1 2 11 0, Event.write2 2 102 0, Event.write2 2 40 500,
        Event.write1 2 64 1,
        Event.read4 1 132, Event.read2 1 126, Event.read4 2 132, Event.read2 2 126,
        Event.stopFlagRead false,
        Event.read4 1 132, Event.read2 1 126, Event.read4 2 132, Event.read2 2 126,
        Event.write2 1 102 0, Event.write2 2 102 0, Event.row 0 0 0 0 0,
        Event.stopFlagRead true,
        Event.write2 1 102 0, Event.write2 2 102 0, Event.write1 1 64 0, Event.write1 2 64 0,
        Event.closePort]
        = CurrentControl2.preLoop CurrentControl2.envNominal.bus ++ loopEvents ++
        [Event.write2 1 102 0, Event.write2 2 102 0, Event.write1 1 64 0, Event.write1 2 64 0] ++
        (if CurrentControl2.envNominal.inputThreadEnds then [Event.closePort] else []) ∧
      (∀ e ∈ loopEvents, CurrentControl2.isTorqueWrite e = false) :=
  C8_shutdown_writes_after_loop CurrentControl2.envNominal 2 _
    (by
      norm_num [CurrentControl2.main, CurrentControl2.controlLoop, CurrentControl2.tick,
        CurrentControl2.envNominal, CurrentControl2.setupMotor, CurrentControl2.getMotorData,
        CurrentControl2.initialParams, CurrentControl2.preLoop, CurrentControl2.shutdownWrites,
        CurrentControl2.pdOutput, CurrentControl2.limitCurrent, CurrentControl2.duration,
        CurrentControl2.dt, CurrentControl2.Kp, CurrentControl2.Kd,
        CurrentControl2.MAX_CURRENT, CurrentControl2.MIN_CURRENT,
        calculateTargetPosition, truncToInt, wrapInt32, wrapInt16,
        okReply, COMM_SUCCESS, ADDR_TORQUE_ENABLE, ADDR_OPERATING_MODE, ADDR_GOAL_CURRENT,
        ADDR_PRESENT_POSITION, ADDR_PRESENT_CURRENT,
        CurrentControl2.ADDR_TORQUE_LIMIT, CurrentControl2.DXL_ID1, CurrentControl2.DXL_ID2,
        CurrentControl2.CURRENT_CONTROL_MODE, TORQUE_ENABLE, TORQUE_DISABLE])
    (by
      simp [CurrentControl2.entersLoop, CurrentControl2.envNominal, CurrentControl2.setupMotor,
        okReply, COMM_SUCCESS])

/-- C9: in the loop of `current_control2.cpp` every tick issues exactly one
stop-flag read, as its first event; a tick that sees the flag set issues
nothing else and leaves the loop; hence, when the flag is seen set at the top
of tick `i + n`, the loop started at tick `i` is left after at most `n + 1`
ticks. -/
theorem C9_stop_flag_read_once_at_top (env : CurrentControl2.Env) (p : CurrentControl2.Params)
    (i k : Nat) (st : CurrentControl2.LoopState) :
    (CurrentControl2.tick env p i k st).events.head? = some (Event.stopFlagRead (env.stop i)) ∧
    (CurrentControl2.tick env p i k st).events.countP CurrentControl2.isStopFlagRead = 1 ∧
    (env.stop i = true →
      CurrentControl2.tick env p i k st = Step.exit [Event.stopFlagRead true]) ∧
    (∀ n fuel, env.stop (i + n) = true → n < fuel →
      ∃ ev, CurrentControl2.controlLoop env p fuel i k st = some ev ∧
        ev.countP CurrentControl2.isStopFlagRead ≤ n + 1) := by
  refine ⟨?_, CurrentControl2.tick_count_stopFlagRead env p i k st, ?_, ?_⟩
  · rcases CurrentControl2.tick_cases env p i k st with
      ⟨hs, h⟩ | ⟨hs, -, h⟩ | ⟨hs, -, g1, g2, st', h⟩ <;>
      rw [h, hs] <;> rfl
  · intro hs
    rcases CurrentControl2.tick_cases env p i k st with
      ⟨-, h⟩ | ⟨hs', -, -⟩ | ⟨hs', -, -⟩
    · exact h
    · rw [hs] at hs'
      exact absurd hs' (by simp)
    · rw [hs] at hs'
      exact absurd hs' (by simp)
  · intro n fuel hstop hfuel
    exact CurrentControl2.controlLoop_exits env p n fuel i k st (Or.inl hstop) hfuel

/-- C10 (the code at the failing input): in the run
`CurrentControl2.envReadFails` the position read of actuator 1 in tick 0 returns
a transport failure, and tick 0 still writes its telemetry row. -/
theorem C10_row_written_after_failed_read :
    (CurrentControl2.envReadFails.bus 14).comm ≠ COMM_SUCCESS ∧
    CurrentControl2.main CurrentControl2.envReadFails 2 =
      some [Event.write1 1 64 0, Event.write1 1 11 0, Event.write2 1 102 0,
        Event.write2 1 40 500, Event.write1 1 64 1,
        Event.write1 2 64 0, Event.write1 2 11 0, Event.write2 2 102 0, Event.write2 2 40 500,
        Event.write1 2 64 1,
        Event.read4 1 132, Event.read2 1 126, Event.read4 2 132, Event.read2 2 126,
        Event.stopFlagRead false,
        Event.read4 1 132, Event.read2 1 126, Event.read4 2 132, Event.read2 2 126,
        Event.write2 1 102 0, Event.write2 2 102 0, Event.row 0 0 0 0 0,
        Event.stopFlagRead true,
        Event.write2 1 102 0, Event.write2 2 102 0, Event.write1 1 64 0, Event.write1 2 64 0,
        Event.closePort] := by
  constructor
  · simp [CurrentControl2.envReadFails, failReply, COMM_SUCCESS]
  · norm_num [CurrentControl2.main, CurrentControl2.controlLoop, CurrentControl2.tick,
      CurrentControl2.envReadFails, CurrentControl2.setupMotor, CurrentControl2.getMotorData,
      CurrentControl2.initialParams, CurrentControl2.preLoop, CurrentControl2.shutdownWrites,
      CurrentControl2.pdOutput, CurrentControl2.limitCurrent, CurrentControl2.duration,
      CurrentControl2.dt, CurrentControl2.Kp, CurrentControl2.Kd,
      CurrentControl2.MAX_CURRENT, CurrentControl2.MIN_CURRENT,
      calculateTargetPosition, truncToInt, wrapInt32, wrapInt16,
      okReply, failReply, COMM_SUCCESS, ADDR_TORQUE_ENABLE, ADDR_OPERATING_MODE,
      ADDR_GOAL_CURRENT, ADDR_PRESENT_POSITION, ADDR_PRESENT_CURRENT,
      CurrentControl2.ADDR_TORQUE_LIMIT, CurrentControl2.DXL_ID1, CurrentControl2.DXL_ID2,
      CurrentControl2.CURRENT_CONTROL_MODE, TORQUE_ENABLE, TORQUE_DISABLE]

/-! ## Claims on the loop of current.cpp -/

/-- C11 (as stated, refuted): in the run `Current.envReadFails` the position read
of tick 0 fails; no key is pressed and the clock of tick 1 is below `DURATION`,
yet no tick 1 is executed: the run goes straight to the torque-disable write. -/
theorem C11_counterexample :
    Current.envReadFails.kbhit 1 = false ∧
    Current.envReadFails.clock 1 < Current.DURATION ∧
    Current.main Current.envReadFails 5 =
      some [Event.write1 1 11 0, Event.write1 1 64 1, Event.write2 1 38 20, Event.read4 1 132,
        Event.read4 1 132,
        Event.write1 1 64 0, Event.closePort, Event.saveCsv []] := by
  refine ⟨rfl, ?_, ?_⟩
  · norm_num [Current.envReadFails, Current.DURATION]
  · norm_num [Current.main, Current.controlLoop, Current.tick, Current.envReadFails,
      Step.events, okReply, failReply, COMM_SUCCESS, Current.DURATION, Current.DXL_ID,
      ADDR_GOAL_CURRENT, ADDR_OPERATING_MODE, ADDR_TORQUE_ENABLE, ADDR_PRESENT_POSITION,
      ADDR_PRESENT_CURRENT, Current.ADDR_CURRENT_LIMIT, Current.OPERATING_MODE_CURRENT,
      Current.MAX_CURRENT, TORQUE_ENABLE, TORQUE_DISABLE]

/-- C11 (amended): in the loop of `current.cpp`, when a tick runs its body (no
key pressed, elapsed time below `DURATION`) and one of its transactions returns
a transport failure, the tick leaves the loop at once: it has issued at least
one transaction, it appends no sample to `data_log`, and the loop ends there
with `data_log` as it was before the tick, so no later tick is executed. -/
theorem C11_failed_transaction_ends_loop (env : Current.Env) (initial_position : Int)
    (fuel i k : Nat) (st : Current.LoopState)
    (hk : env.kbhit i = false) (ht : env.clock i < Current.DURATION)
    (hfail : ∃ j, j < 3 ∧ (env.bus (k + j)).comm ≠ COMM_SUCCESS) :
    ∃ ev, Current.tick env initial_position i k st = Step.exit ev ∧ ev ≠ [] ∧
      Current.controlLoop env initial_position (fuel + 1) i k st = some (ev, st.data_log) := by
  have hexit : ∃ ev, Current.tick env initial_position i k st = Step.exit ev ∧ ev ≠ [] := by
    obtain ⟨j, hj, hjf⟩ := hfail
    unfold Current.tick
    simp only [hk, Bool.false_eq_true, if_false, ge_iff_le, if_neg (not_le.mpr ht)]
    by_cases h0 : (env.bus k).comm = COMM_SUCCESS
    · by_cases h1 : (env.bus (k + 1)).comm = COMM_SUCCESS
      · by_cases h2 : (env.bus (k + 2)).comm = COMM_SUCCESS
        · exfalso
          have hcases : j = 0 ∨ j = 1 ∨ j = 2 := by omega
          rcases hcases with rfl | rfl | rfl
          · exact hjf h0
          · exact hjf h1
          · exact hjf h2
        · simp [h0, h1, h2]
      · simp [h0, h1]
    · simp [h0]
  obtain ⟨ev, hev, hne⟩ := hexit
  refine ⟨ev, hev, hne, ?_⟩
  simp [Current.controlLoop, hev]

/-- Witness for the amended C11: tick 0 of the run `Current.envReadFails`. -/
theorem C11_witness :
    ∃ ev, Current.tick Current.envReadFails 0 0 4
        { previous_position := 0, previous_time := 0, data_log := [] } = Step.exit ev ∧
      ev ≠ [] ∧
      Current.controlLoop Current.envReadFails 0 (0 + 1) 0 4
        { previous_position := 0, previous_time := 0, data_log := [] } = some (ev, []) :=
  C11_failed_transaction_ends_loop Current.envReadFails 0 0 0 4
    { previous_position := 0, previous_time := 0, data_log := [] } rfl
    (by norm_num [Current.envReadFails, Current.DURATION])
    ⟨0, by decide, by simp [Current.envReadFails, failReply, COMM_SUCCESS]⟩

/-- C12 (as stated, refuted): in the run `Current.envNominal` (initial position
0, first measured position 500 at 1.5 s) the velocity of the first tick is
`1000/3`, not zero, and the first command is `-20`, whereas the proportional
term alone (zero velocity, same position error 12) gives `12`; and in
`current_control2.cpp` a first error of 10 gives the derivative `1000`. -/
theorem C12_counterexample :
    Current.velocity 500 0 (3 / 2) 0 = some (1000 / 3) ∧
    (Current.tick Current.envNominal 0 0 4
        { previous_position := 0, previous_time := 0, data_log := [] }).events =
      [Event.read4 1 132, Event.write2 1 102 (-20), Event.read2 1 126] ∧
    Current.goalCurrent 12 0 = 12 ∧
    CurrentControl2.derivative 10 0 = 1000 := by
  refine ⟨?_, ?_, ?_, ?_⟩
  · norm_num [Current.velocity, Current.velocityDivisor, wrapInt32]
  · norm_num [Current.tick, Current.envNominal, Step.events, okReply, COMM_SUCCESS,
      Current.DURATION, Current.targetPosition, Current.TARGET_POSITION, wrapInt32, wrapInt16,
      truncToInt, Current.goalCurrentAt, Current.velocity, Current.velocityDivisor,
      Current.goalCurrent, Current.pdOutput, Current.P_GAIN, Current.D_GAIN,
      Current.clampCurrent, Current.MAX_CURRENT, Current.DXL_ID, ADDR_GOAL_CURRENT,
      ADDR_PRESENT_POSITION, ADDR_PRESENT_CURRENT]
  · norm_num [Current.goalCurrent, Current.pdOutput, Current.P_GAIN, Current.D_GAIN,
      truncToInt, wrapInt16, Current.clampCurrent, Current.MAX_CURRENT]
  · norm_num [CurrentControl2.derivative, CurrentControl2.dt]

/-- C12 (amended): on the first tick of `current.cpp` (state
`previous_position = initial_position`, `previous_time = 0`), when the body
runs with a non-zero elapsed time and the position read succeeds, the velocity
is `(present_position - initial_position) / elapsed_time` and the goal current
written is computed from it; it is zero when the measured position equals the
initial position. On the first tick of `current_control2.cpp`
(`previous_error = 0`) the derivative of each actuator is `error / dt`, zero
exactly when the error is zero, and the goal currents written are computed
from it. -/
theorem C12_first_tick_derivative (env : Current.Env) (initial_position : Int)
    (env2 : CurrentControl2.Env) (p : CurrentControl2.Params)
    (hk : env.kbhit 0 = false) (ht : env.clock 0 < Current.DURATION)
    (ht0 : env.clock 0 ≠ 0) (hbus : (env.bus 4).comm = COMM_SUCCESS)
    (hs : env2.stop 0 = false)
    (he : ¬ (env2.clockMs 0 : ℚ) / 1000 > CurrentControl2.duration) :
    Current.velocity (wrapInt32 (env.bus 4).data) initial_position (env.clock 0) 0 =
      some (((wrapInt32 (wrapInt32 (env.bus 4).data - initial_position) : Int) : ℚ) /
        env.clock 0) ∧
    Current.velocity initial_position initial_position (env.clock 0) 0 = some 0 ∧
    Event.write2 1 102
        (Current.goalCurrent
          (wrapInt32 (Current.targetPosition initial_position (env.clock 0) -
            wrapInt32 (env.bus 4).data))
          (((wrapInt32 (wrapInt32 (env.bus 4).data - initial_position) : Int) : ℚ) /
            env.clock 0)) ∈
      (Current.tick env initial_position 0 4
        { previous_position := initial_position, previous_time := 0, data_log := [] }).events ∧
    (∀ error : ℚ, CurrentControl2.derivative error 0 = error / CurrentControl2.dt ∧
      (CurrentControl2.derivative error 0 = 0 ↔ error = 0) ∧
      CurrentControl2.pdOutput error 0 =
        CurrentControl2.Kp * error + CurrentControl2.Kd * CurrentControl2.derivative error 0) ∧
    Event.write2 1 102
        (CurrentControl2.limitCurrent (CurrentControl2.pdOutput
          ((wrapInt32 (calculateTargetPosition p.start_position1 p.goal_position1
            ((env2.clockMs 0 : ℚ) / 1000) CurrentControl2.duration -
              wrapInt32 (env2.bus 14).data) : Int) : ℚ) 0)) ∈
      (CurrentControl2.tick env2 p 0 14 { previous_error1 := 0, previous_error2 := 0 }).events ∧
    Event.write2 2 102
        (CurrentControl2.limitCurrent (CurrentControl2.pdOutput
          ((wrapInt32 (calculateTargetPosition p.start_position2 p.goal_position2
            ((env2.clockMs 0 : ℚ) / 1000) CurrentControl2.duration -
              wrapInt32 (env2.bus 16).data) : Int) : ℚ) 0)) ∈
      (CurrentControl2.tick env2 p 0 14 { previous_error1 := 0, previous_error2 := 0 }).events := by
  have hdiv : Current.velocityDivisor (env.clock 0) 0 = env.clock 0 := by
    simp [Current.velocityDivisor]
  have hv : ∀ present : Int,
      Current.velocity present initial_position (env.clock 0) 0 =
        some (((wrapInt32 (present - initial_position) : Int) : ℚ) / env.clock 0) := by
    intro present
    unfold Current.velocity
    rw [hdiv, if_neg ht0]
  refine ⟨hv _, ?_, ?_, ?_, ?_, ?_⟩
  · rw [hv]
    simp [wrapInt32]
  · unfold Current.tick
    simp only [hk, Bool.false_eq_true, if_false, ge_iff_le, if_neg (not_le.mpr ht), hbus,
      ne_eq, not_true_eq_false, hv, Current.goalCurrentAt]
    split_ifs <;> simp [Step.events, Current.DXL_ID, ADDR_GOAL_CURRENT]
  · intro error
    have hdt : CurrentControl2.dt ≠ 0 := by norm_num [CurrentControl2.dt]
    refine ⟨by simp [CurrentControl2.derivative], ?_, rfl⟩
    simp [CurrentControl2.derivative, hdt]
  · unfold CurrentControl2.tick
    simp only [hs, Bool.false_eq_true, if_false, if_neg he]
    simp [Step.events, CurrentControl2.getMotorData, CurrentControl2.DXL_ID1,
      CurrentControl2.DXL_ID2, ADDR_GOAL_CURRENT]
  · unfold CurrentControl2.tick
    simp only [hs, Bool.false_eq_true, if_false, if_neg he]
    simp [Step.events, CurrentControl2.getMotorData, CurrentControl2.DXL_ID1,
      CurrentControl2.DXL_ID2, ADDR_GOAL_CURRENT]

/-- Witness for the amended C12: the first ticks of `Current.envNominal` and of
`CurrentControl2.envNominal`. -/
theorem C12_witness :
    Current.velocity (wrapInt32 (Current.envNominal.bus 4).data) 0 (Current.envNominal.clock 0) 0 =
      some (((wrapInt32 (wrapInt32 (Current.envNominal.bus 4).data - 0) : Int) : ℚ) /
        Current.envNominal.clock 0) ∧
    Current.velocity 0 0 (Current.envNominal.clock 0) 0 = some 0 ∧
    Event.write2 1 102
        (Current.goalCurrent
          (wrapInt32 (Current.targetPosition 0 (Current.envNominal.clock 0) -
            wrapInt32 (Current.envNominal.bus 4).data))
          (((wrapInt32 (wrapInt32 (Current.envNominal.bus 4).data - 0) : Int) : ℚ) /
            Current.envNominal.clock 0)) ∈
      (Current.tick Current.envNominal 0 0 4
        { previous_position := 0, previous_time := 0, data_log := [] }).events ∧
    (∀ error : ℚ, CurrentControl2.derivative error 0 = error / CurrentControl2.dt ∧
      (CurrentControl2.derivative error 0 = 0 ↔ error = 0) ∧
      CurrentControl2.pdOutput error 0 =
        CurrentControl2.Kp * error + CurrentControl2.Kd * CurrentControl2.derivative error 0) ∧
    Event.write2 1 102
        (CurrentControl2.limitCurrent (CurrentControl2.pdOutput
          ((wrapInt32 (calculateTargetPosition
            (CurrentControl2.initialParams CurrentControl2.envNominal.bus).start_position1
            (CurrentControl2.initialParams CurrentControl2.envNominal.bus).goal_position1
            ((CurrentControl2.envNominal.clockMs 0 : ℚ) / 1000) CurrentControl2.duration -
              wrapInt32 (CurrentControl2.envNominal.bus 14).data) : Int) : ℚ) 0)) ∈
      (CurrentControl2.tick CurrentControl2.envNominal
        (CurrentControl2.initialParams CurrentControl2.envNominal.bus) 0 14
        { previous_error1 := 0, previous_error2 := 0 }).events ∧
    Event.write2 2 102
        (CurrentControl2.limitCurrent (CurrentControl2.pdOutput
          ((wrapInt32 (calculateTargetPosition
            (CurrentControl2.initialParams CurrentControl2.envNominal.bus).start_position2
            (CurrentControl2.initialParams CurrentControl2.envNominal.bus).goal_position2
            ((CurrentControl2.envNominal.clockMs 0 : ℚ) / 1000) CurrentControl2.duration -
              wrapInt32 (CurrentControl2.envNominal.bus 16).data) : Int) : ℚ) 0)) ∈
      (CurrentControl2.tick CurrentControl2.envNominal
        (CurrentControl2.initialParams CurrentControl2.envNominal.bus) 0 14
        { previous_error1 := 0, previous_error2 := 0 }).events :=
  C12_first_tick_derivative Current.envNominal 0 CurrentControl2.envNominal
    (CurrentControl2.initialParams CurrentControl2.envNominal.bus)
    rfl (by norm_num [Current.envNominal, Current.DURATION])
    (by norm_num [Current.envNominal])
    (by simp [Current.envNominal, okReply])
    rfl (by norm_num [CurrentControl2.envNominal, CurrentControl2.duration])

/-- A tick of `current.cpp` that runs to its end leaves `previous_time` equal to
its own clock reading. -/
theorem Current.tick_next_previous_time (env : Current.Env) (initial_position : Int)
    (i k : Nat) (st st' : Current.LoopState) (ev : List Event)
    (h : Current.tick env initial_position i k st = Step.next ev st') :
    st'.previous_time = env.clock i := by
  unfold Current.tick at h
  simp only [] at h
  split_ifs at h
  simp only [Step.next.injEq] at h
  rw [← h.2]

/-- C13 (as stated, refuted): the run `Current.envConstantClock` has the
non-decreasing clock readings 1, 1, ...; tick 0 runs to its end, so at tick 1
`previous_time = 1` and the divisor `elapsed_time - previous_time` is zero: the
goal current written in tick 1 is 7, the value that the conversion of the
non-finite result yields in this run. -/
theorem C13_counterexample :
    (∀ i, Current.envConstantClock.clock i ≤ Current.envConstantClock.clock (i + 1)) ∧
    Current.stateAt Current.envConstantClock 0 1 =
      some (7, { previous_position := 0, previous_time := 1,
                 data_log := [{ time := 1, current := 0, position := 0 }] }) ∧
    Current.velocityDivisor (Current.envConstantClock.clock 1) 1 = 0 ∧
    Current.main Current.envConstantClock 3 =
      some [Event.write1 1 11 0, Event.write1 1 64 1, Event.write2 1 38 20, Event.read4 1 132,
        Event.read4 1 132, Event.write2 1 102 20, Event.read2 1 126,
        Event.read4 1 132, Event.write2 1 102 7, Event.read2 1 126,
        Event.write1 1 64 0, Event.closePort,
        Event.saveCsv [{ time := 1, current := 0, position := 0 },
          { time := 1, current := 0, position := 0 }]] := by
  refine ⟨fun i => le_rfl, ?_, ?_, ?_⟩
  · norm_num [Current.stateAt, Current.tick, Current.envConstantClock,
      okReply, COMM_SUCCESS, Current.DURATION, wrapInt32, wrapInt16]
  · norm_num [Current.velocityDivisor, Current.envConstantClock]
  · norm_num [Current.main, Current.controlLoop, Current.tick, Current.envConstantClock,
      Step.events, okReply, COMM_SUCCESS,
      Current.DURATION, Current.targetPosition, Current.TARGET_POSITION, wrapInt32, wrapInt16,
      truncToInt, Current.goalCurrentAt, Current.velocity, Current.velocityDivisor,
      Current.goalCurrent, Current.pdOutput, Current.P_GAIN, Current.D_GAIN,
      Current.clampCurrent, Current.MAX_CURRENT, Current.DXL_ID, ADDR_GOAL_CURRENT,
      ADDR_OPERATING_MODE, ADDR_TORQUE_ENABLE, ADDR_PRESENT_POSITION, ADDR_PRESENT_CURRENT,
      Current.ADDR_CURRENT_LIMIT, Current.OPERATING_MODE_CURRENT, TORQUE_ENABLE, TORQUE_DISABLE]

/-- C13 (amended): in the loop of `current.cpp`, for every strictly increasing
sequence of clock readings whose first reading is positive, at every tick `i`
that the loop reaches the divisor `elapsed_time - previous_time` of the velocity
computation is positive, hence non-zero (at tick 0 it is the first reading, at
tick `i + 1` the difference of the readings of ticks `i + 1` and `i`). -/
theorem C13_divisor_positive_for_increasing_clock (env : Current.Env) (initial_position : Int)
    (i k : Nat) (st : Current.LoopState)
    (hstate : Current.stateAt env initial_position i = some (k, st))
    (h0 : 0 < env.clock 0) (hinc : ∀ j, env.clock j < env.clock (j + 1)) :
    0 < Current.velocityDivisor (env.clock i) st.previous_time ∧
      Current.velocityDivisor (env.clock i) st.previous_time ≠ 0 := by
  have hpos : 0 < Current.velocityDivisor (env.clock i) st.previous_time := by
    cases i with
    | zero =>
      simp only [Current.stateAt, Option.some.injEq, Prod.mk.injEq] at hstate
      rw [← hstate.2]
      simpa [Current.velocityDivisor] using h0
    | succ i =>
      simp only [Current.stateAt] at hstate
      cases hprev : Current.stateAt env initial_position i with
      | none =>
        rw [hprev] at hstate
        simp at hstate
      | some ks =>
        obtain ⟨k0, st0⟩ := ks
        rw [hprev] at hstate
        simp only [] at hstate
        cases htick : Current.tick env initial_position i k0 st0 with
        | exit ev =>
          rw [htick] at hstate
          simp at hstate
        | next ev st' =>
          rw [htick] at hstate
          simp only [Option.some.injEq, Prod.mk.injEq] at hstate
          rw [← hstate.2, Current.tick_next_previous_time env initial_position i k0 st0 st' ev htick]
          unfold Current.velocityDivisor
          exact sub_pos.mpr (hinc i)
  exact ⟨hpos, ne_of_gt hpos⟩

/-- Witness for the amended C13: tick 1 of the run `Current.envIncreasingClock`. -/
theorem C13_witness :
    0 < Current.velocityDivisor (Current.envIncreasingClock.clock 1)
        ({ previous_position := 0, previous_time := 1 / 100,
           data_log := [{ time := 1 / 100, current := 0, position := 0 }] } :
          Current.LoopState).previous_time ∧
      Current.velocityDivisor (Current.envIncreasingClock.clock 1)
        ({ previous_position := 0, previous_time := 1 / 100,
           data_log := [{ time := 1 / 100, current := 0, position := 0 }] } :
          Current.LoopState).previous_time ≠ 0 :=
  C13_divisor_positive_for_increasing_clock Current.envIncreasingClock 0 1 7
    { previous_position := 0, previous_time := 1 / 100,
      data_log := [{ time := 1 / 100, current := 0, position := 0 }] }
    (by
      norm_num [Current.stateAt, Current.tick, Current.envIncreasingClock,
        okReply, COMM_SUCCESS, Current.DURATION, wrapInt32, wrapInt16])
    (by norm_num [Current.envIncreasingClock])
    (by
      intro j
      simp only [Current.envIncreasingClock]
      push_cast
      linarith)

/-! ## Claims on the end of the runs of current.cpp and error.cpp -/

theorem Current.tick_transactions (env : Current.Env) (initial_position : Int) (i k : Nat)
    (st : Current.LoopState) :
    ∀ e ∈ (Current.tick env initial_position i k st).events, isTransaction e = true := by
  unfold Current.tick
  simp only []
  split_ifs <;> simp [Step.events, isTransaction]

theorem Current.controlLoop_transactions (env : Current.Env) (initial_position : Int) :
    ∀ (fuel i k : Nat) (st : Current.LoopState) (ev : List Event) (log : List DataRecord),
      Current.controlLoop env initial_position fuel i k st = some (ev, log) →
      ∀ e ∈ ev, isTransaction e = true := by
  intro fuel
  induction fuel with
  | zero =>
    intro i k st ev log h
    simp [Current.controlLoop] at h
  | succ fuel ih =>
    intro i k st ev log h e he
    have hstep := Current.tick_transactions env initial_position i k st
    unfold Current.controlLoop at h
    cases htick : Current.tick env initial_position i k st with
    | exit ev0 =>
      rw [htick] at h hstep
      simp only [Option.some.injEq, Prod.mk.injEq] at h
      rw [← h.1] at he
      exact hstep e he
    | next ev0 st' =>
      rw [htick] at h hstep
      simp only [Option.map_eq_some'] at h
      obtain ⟨rest, hrest, hpair⟩ := h
      simp only [Prod.mk.injEq] at hpair
      rw [← hpair.1] at he
      rcases List.mem_append.mp he with h1 | h1
      · exact hstep e h1
      · exact ih (i + 1) (k + 3) st' rest.1 rest.2 hrest e h1

theorem ErrorCpp.forTick_transactions (env : ErrorCpp.Env) (initial_position : Int) (i k : Nat)
    (log : List DataRecord) :
    ∀ e ∈ (ErrorCpp.tick env initial_position i k log).events, isTransaction e = true := by
  unfold ErrorCpp.tick
  simp only []
  split_ifs <;> simp [Step.events, isTransaction]

theorem ErrorCpp.forLoop_transactions (env : ErrorCpp.Env) (initial_position : Int) :
    ∀ (n i k : Nat) (log : List DataRecord),
      ∀ e ∈ (ErrorCpp.controlLoop env initial_position n i k log).1, isTransaction e = true := by
  intro n
  induction n with
  | zero =>
    intro i k log e he
    simp [ErrorCpp.controlLoop] at he
  | succ n ih =>
    intro i k log e he
    have hstep := ErrorCpp.forTick_transactions env initial_position i k log
    unfold ErrorCpp.controlLoop at he
    cases htick : ErrorCpp.tick env initial_position i k log with
    | exit ev0 =>
      rw [htick] at he hstep
      exact hstep e he
    | next ev0 log' =>
      rw [htick] at he hstep
      simp only [] at he
      rcases List.mem_append.mp he with h1 | h1
      · exact hstep e h1
      · exact ih (i + 1) (k + 3) log' e h1

/-- C14 (as stated, refuted): in the run `Current.envNominal` of `current.cpp` and
in the run `ErrorCpp.envShort` of `error.cpp` the port is closed right after the
torque-disable write and before the samples of `data_log` are written to the
CSV file. -/
theorem C14_counterexample :
    Current.main Current.envNominal 2 =
      some [Event.write1 1 11 0, Event.write1 1 64 1, Event.write2 1 38 20, Event.read4 1 132,
        Event.read4 1 132, Event.write2 1 102 (-20), Event.read2 1 126,
        Event.write1 1 64 0, Event.closePort,
        Event.saveCsv [{ time := 3 / 2, current := 0, position := 500 }]] ∧
    ErrorCpp.main ErrorCpp.envShort =
      [Event.write1 1 11 0, Event.write1 1 64 1, Event.write2 1 38 10, Event.write2 1 102 3,
        Event.read4 1 132,
        Event.write4 1 132 3, Event.read2 1 126, Event.read4 1 132,
        Event.write4 1 132 6,
        Event.write1 1 64 0, Event.closePort,
        Event.saveCsv [{ time := 1 / 100, current := 5, position := 7 }]] := by
  constructor
  · norm_num [Current.main, Current.controlLoop, Current.tick, Current.envNominal,
      Step.events, okReply, COMM_SUCCESS,
      Current.DURATION, Current.targetPosition, Current.TARGET_POSITION, wrapInt32, wrapInt16,
      truncToInt, Current.goalCurrentAt, Current.velocity, Current.velocityDivisor,
      Current.goalCurrent, Current.pdOutput, Current.P_GAIN, Current.D_GAIN,
      Current.clampCurrent, Current.MAX_CURRENT, Current.DXL_ID, ADDR_GOAL_CURRENT,
      ADDR_OPERATING_MODE, ADDR_TORQUE_ENABLE, ADDR_PRESENT_POSITION, ADDR_PRESENT_CURRENT,
      Current.ADDR_CURRENT_LIMIT, Current.OPERATING_MODE_CURRENT, TORQUE_ENABLE, TORQUE_DISABLE]
  · norm_num [ErrorCpp.main, ErrorCpp.controlLoop, ErrorCpp.tick, ErrorCpp.envShort,
      okReply, failReply, COMM_SUCCESS,
      ErrorCpp.DURATION, ErrorCpp.targetPosition, ErrorCpp.TARGET_POSITION, wrapInt32, wrapInt16,
      truncToInt, ErrorCpp.DXL_ID, ADDR_GOAL_CURRENT,
      ADDR_OPERATING_MODE, ADDR_TORQUE_ENABLE, ADDR_PRESENT_POSITION, ADDR_PRESENT_CURRENT,
      ErrorCpp.ADDR_CURRENT_LIMIT, ErrorCpp.OPERATING_MODE_CURRENT, TORQUE_ENABLE,
      TORQUE_DISABLE]

/-- C14 (amended): every run of `current.cpp` that reaches the loop and leaves
it, and every run of `error.cpp` that reaches the loop, ends with the
torque-disable write, then the closing of the port, then (when the file opens)
the writing of the samples of `data_log` to the CSV file; every event before
the torque-disable write is a bus transaction. So `closePort` never comes
before the torque-disable write, and it always comes before the telemetry is
written. -/
theorem C14_port_closed_after_torque_disable_before_save (env : Current.Env) (fuel : Nat)
    (run : List Event) (envE : ErrorCpp.Env)
    (hrun : Current.main env fuel = some run)
    (henter : Current.entersLoop env = true)
    (henterE : ErrorCpp.entersLoop envE = true) :
    (∃ pre loopEvents data_log,
      Current.controlLoop env (wrapInt32 (env.bus 3).data) fuel 0 4
        { previous_position := wrapInt32 (env.bus 3).data, previous_time := 0, data_log := [] }
        = some (loopEvents, data_log) ∧
      run = pre ++ [Event.write1 1 64 0, Event.closePort] ++
        (if env.fileOpens then [Event.saveCsv data_log] else []) ∧
      (∀ e ∈ pre, isTransaction e = true)) ∧
    (∃ pre,
      ErrorCpp.main envE = pre ++ [Event.write1 1 64 0, Event.closePort] ++
        (if envE.fileOpens then
          [Event.saveCsv (ErrorCpp.controlLoop envE (wrapInt32 (envE.bus 4).data) 300 0 5 []).2]
        else []) ∧
      (∀ e ∈ pre, isTransaction e = true)) := by
  constructor
  · unfold Current.entersLoop at henter
    simp only [Bool.and_eq_true, beq_iff_eq] at henter
    obtain ⟨⟨⟨ho, hb⟩, h2⟩, h3⟩ := henter
    unfold Current.main at hrun
    simp only [ho, hb, h2, h3, Bool.not_true, Bool.false_eq_true, if_false, ne_eq,
      not_true_eq_false] at hrun
    cases hloop : Current.controlLoop env (wrapInt32 (env.bus 3).data) fuel 0 4
        { previous_position := wrapInt32 (env.bus 3).data, previous_time := 0, data_log := [] } with
    | none =>
      rw [hloop] at hrun
      simp at hrun
    | some res =>
      obtain ⟨loopEvents, data_log⟩ := res
      rw [hloop] at hrun
      simp only [Option.some.injEq] at hrun
      refine ⟨[Event.write1 1 11 0, Event.write1 1 64 1, Event.write2 1 38 20, Event.read4 1 132]
        ++ loopEvents, loopEvents, data_log, rfl, ?_, ?_⟩
      · rw [← hrun]
        rfl
      · intro e he
        rcases List.mem_append.mp he with h | h
        · simp only [List.mem_cons, List.mem_singleton, List.not_mem_nil, or_false] at h
          rcases h with rfl | rfl | rfl | rfl <;> rfl
        · exact Current.controlLoop_transactions env _ fuel 0 4 _ loopEvents data_log hloop e h
  · unfold ErrorCpp.entersLoop at henterE
    simp only [Bool.and_eq_true, beq_iff_eq] at henterE
    obtain ⟨⟨⟨⟨ho, hb⟩, h2⟩, h3⟩, h4⟩ := henterE
    refine ⟨[Event.write1 1 11 0, Event.write1 1 64 1, Event.write2 1 38 10,
      Event.write2 1 102 3, Event.read4 1 132]
        ++ (ErrorCpp.controlLoop envE (wrapInt32 (envE.bus 4).data) 300 0 5 []).1, ?_, ?_⟩
    · unfold ErrorCpp.main
      simp only [ho, hb, h2, h3, h4, Bool.not_true, Bool.false_eq_true, if_false, ne_eq,
        not_true_eq_false]
      rfl
    · intro e he
      rcases List.mem_append.mp he with h | h
      · simp only [List.mem_cons, List.mem_singleton, List.not_mem_nil, or_false] at h
        rcases h with rfl | rfl | rfl | rfl | rfl <;> rfl
      · exact ErrorCpp.forLoop_transactions envE _ 300 0 5 [] e h

/-- Witness for the amended C14: the runs `Current.envNominal` and
`ErrorCpp.envShort`. -/
theorem C14_witness :
    (∃ pre loopEvents data_log,
      Current.controlLoop Current.envNominal (wrapInt32 (Current.envNominal.bus 3).data) 2 0 4
        { previous_position := wrapInt32 (Current.envNominal.bus 3).data, previous_time := 0,
          data_log := [] }
        = some (loopEvents, data_log) ∧
      [Event.write1 1 11 0, Event.write1 1 64 1, Event.write2 1 38 20, Event.read4 1 132,
        Event.read4 1 132, Event.write2 1 102 (-20), Event.read2 1 126,
        Event.write1 1 64 0, Event.closePort,
        Event.saveCsv [{ time := 3 / 2, current := 0, position := 500 }]]
        = pre ++ [Event.write1 1 64 0, Event.closePort] ++
        (if Current.envNominal.fileOpens then [Event.saveCsv data_log] else []) ∧
      (∀ e ∈ pre, isTransaction e = true)) ∧
    (∃ pre,
      ErrorCpp.main ErrorCpp.envShort = pre ++ [Event.write1 1 64 0, Event.closePort] ++
        (if ErrorCpp.envShort.fileOpens then
          [Event.saveCsv (ErrorCpp.controlLoop ErrorCpp.envShort
            (wrapInt32 (ErrorCpp.envShort.bus 4).data) 300 0 5 []).2]
        else []) ∧
      (∀ e ∈ pre, isTransaction e = true)) :=
  C14_port_closed_after_torque_disable_before_save Current.envNominal 2 _ ErrorCpp.envShort
    (by
      norm_num [Current.main, Current.controlLoop, Current.tick, Current.envNominal,
        Step.events, okReply, COMM_SUCCESS,
        Current.DURATION, Current.targetPosition, Current.TARGET_POSITION, wrapInt32, wrapInt16,
        truncToInt, Current.goalCurrentAt, Current.velocity, Current.velocityDivisor,
        Current.goalCurrent, Current.pdOutput, Current.P_GAIN, Current.D_GAIN,
        Current.clampCurrent, Current.MAX_CURRENT, Current.DXL_ID, ADDR_GOAL_CURRENT,
        ADDR_OPERATING_MODE, ADDR_TORQUE_ENABLE, ADDR_PRESENT_POSITION, ADDR_PRESENT_CURRENT,
        Current.ADDR_CURRENT_LIMIT, Current.OPERATING_MODE_CURRENT, TORQUE_ENABLE,
        TORQUE_DISABLE])
    (by simp [Current.entersLoop, Current.envNominal, okReply])
    (by simp [ErrorCpp.entersLoop, ErrorCpp.envShort, okReply])

/-! ## Claims on `printDxlError` -/

theorem and_two_pow_ne_zero (e i : Nat) : e &&& 2 ^ i ≠ 0 ↔ e.testBit i = true := by
  rw [Nat.and_two_pow]
  cases e.testBit i <;> simp

theorem filter_map_range_seven {α : Type} (q : Nat → Bool) (f : Nat → α) :
    ((List.range 7).filter q).map f =
      (if q 0 then [f 0] else []) ++ (if q 1 then [f 1] else []) ++
      (if q 2 then [f 2] else []) ++ (if q 3 then [f 3] else []) ++
      (if q 4 then [f 4] else []) ++ (if q 5 then [f 5] else []) ++
      (if q 6 then [f 6] else []) := by
  have hr : List.range 7 = [0] ++ [1] ++ [2] ++ [3] ++ [4] ++ [5] ++ [6] := by decide
  rw [hr]
  simp only [List.filter_append, List.map_append]
  have hs : ∀ i : Nat, ([i].filter q).map f = if q i then [f i] else [] := by
    intro i
    cases hq : q i <;> simp [List.filter_cons, hq]
  simp only [hs]

theorem CurrentControl2.printDxlError_eq_spec (e : Nat) :
    CurrentControl2.printDxlError e = CurrentControl2.specDxlError e := by
  unfold CurrentControl2.printDxlError CurrentControl2.specDxlError
  by_cases h0 : e = 0
  · simp [h0]
  · rw [if_neg h0, if_neg h0, filter_map_range_seven]
    have m0 : e &&& 0x01 ≠ 0 ↔ e.testBit 0 = true := and_two_pow_ne_zero e 0
    have m1 : e &&& 0x02 ≠ 0 ↔ e.testBit 1 = true := and_two_pow_ne_zero e 1
    have m2 : e &&& 0x04 ≠ 0 ↔ e.testBit 2 = true := and_two_pow_ne_zero e 2
    have m3 : e &&& 0x08 ≠ 0 ↔ e.testBit 3 = true := and_two_pow_ne_zero e 3
    have m4 : e &&& 0x10 ≠ 0 ↔ e.testBit 4 = true := and_two_pow_ne_zero e 4
    have m5 : e &&& 0x20 ≠ 0 ↔ e.testBit 5 = true := and_two_pow_ne_zero e 5
    have m6 : e &&& 0x40 ≠ 0 ↔ e.testBit 6 = true := and_two_pow_ne_zero e 6
    simp only [m0, m1, m2, m3, m4, m5, m6, CurrentControl2.faultName, List.append_assoc]

theorem CurrentControl2.faultName_injective (i j : Nat) (hi : i < 7) (hj : j < 7)
    (h : CurrentControl2.faultName i = CurrentControl2.faultName j) : i = j := by
  have hi' : i = 0 ∨ i = 1 ∨ i = 2 ∨ i = 3 ∨ i = 4 ∨ i = 5 ∨ i = 6 := by omega
  have hj' : j = 0 ∨ j = 1 ∨ j = 2 ∨ j = 3 ∨ j = 4 ∨ j = 5 ∨ j = 6 := by omega
  rcases hi' with rfl | rfl | rfl | rfl | rfl | rfl | rfl <;>
    rcases hj' with rfl | rfl | rfl | rfl | rfl | rfl | rfl <;>
    first
      | rfl
      | (exfalso; revert h; simp only [CurrentControl2.faultName]; decide)

theorem CurrentControl2.faultName_ne_heading (i : Nat) (hi : i < 7) :
    ¬ CurrentControl2.faultName i = "エラー内容: " := by
  have hi' : i = 0 ∨ i = 1 ∨ i = 2 ∨ i = 3 ∨ i = 4 ∨ i = 5 ∨ i = 6 := by omega
  rcases hi' with rfl | rfl | rfl | rfl | rfl | rfl | rfl <;>
    simp only [CurrentControl2.faultName] <;> decide

theorem CurrentControl2.faultName_ne_endl (i : Nat) (hi : i < 7) :
    ¬ CurrentControl2.faultName i = "\n" := by
  have hi' : i = 0 ∨ i = 1 ∨ i = 2 ∨ i = 3 ∨ i = 4 ∨ i = 5 ∨ i = 6 := by omega
  rcases hi' with rfl | rfl | rfl | rfl | rfl | rfl | rfl <;>
    simp only [CurrentControl2.faultName] <;> decide

/-- C15: `printDxlError` writes nothing for the byte 0; for any other byte it
writes the heading, then in ascending bit order the names of exactly those
faults `i` in `0..6` whose bit is set (Input Voltage, Angle Limit, Overheating,
Range, Checksum, Overload, Instruction), then the line end; each name appears
if and only if its own bit is set; and bit 7 contributes no name. -/
theorem C15_printDxlError_lists_set_bits (e : Nat) :
    CurrentControl2.printDxlError 0 = [] ∧
    (e ≠ 0 → CurrentControl2.printDxlError e =
      ["エラー内容: "] ++
        ((List.range 7).filter (fun i => e.testBit i)).map CurrentControl2.faultName ++
        ["\n"]) ∧
    (List.range 7).map CurrentControl2.faultName =
      ["Input Voltage Error ", "Angle Limit Error ", "Overheating Error ", "Range Error ",
       "Checksum Error ", "Overload Error ", "Instruction Error "] ∧
    (∀ i, i < 7 →
      (CurrentControl2.faultName i ∈ CurrentControl2.printDxlError e ↔ e.testBit i = true)) ∧
    CurrentControl2.printDxlError 0x80 = ["エラー内容: ", "\n"] ∧
    (e ≠ 0 → CurrentControl2.printDxlError (0x80 + e) = CurrentControl2.printDxlError e) := by
  refine ⟨by simp [CurrentControl2.printDxlError], ?_, by decide, ?_, ?_, ?_⟩
  · intro h0
    rw [CurrentControl2.printDxlError_eq_spec, CurrentControl2.specDxlError, if_neg h0]
  · intro i hi
    rw [CurrentControl2.printDxlError_eq_spec, CurrentControl2.specDxlError]
    by_cases h0 : e = 0
    · subst h0
      simp
    · rw [if_neg h0]
      simp only [List.mem_append, List.mem_singleton, List.mem_map, List.mem_filter,
        List.mem_range]
      constructor
      · rintro ((h | ⟨j, ⟨hj, hq⟩, hname⟩) | h)
        · exact absurd h (CurrentControl2.faultName_ne_heading i hi)
        · rw [← CurrentControl2.faultName_injective j i hj hi hname]
          exact hq
        · exact absurd h (CurrentControl2.faultName_ne_endl i hi)
      · intro hq
        exact Or.inl (Or.inr ⟨i, ⟨hi, hq⟩, rfl⟩)
  · rw [CurrentControl2.printDxlError_eq_spec, CurrentControl2.specDxlError,
      filter_map_range_seven]
    simp [Nat.testBit]
  · intro h0
    have hne : 0x80 + e ≠ 0 := by omega
    rw [CurrentControl2.printDxlError_eq_spec, CurrentControl2.printDxlError_eq_spec,
      CurrentControl2.specDxlError, CurrentControl2.specDxlError, if_neg h0, if_neg hne,
      filter_map_range_seven, filter_map_range_seven]
    have hbit : ∀ j, j < 7 → (0x80 + e).testBit j = e.testBit j := by
      intro j hj
      exact Nat.testBit_two_pow_add_gt (i := 7) hj e
    rw [hbit 0 (by omega), hbit 1 (by omega), hbit 2 (by omega), hbit 3 (by omega),
      hbit 4 (by omega), hbit 5 (by omega), hbit 6 (by omega)]

/-! ## The example scenario of current.cpp -/

/-- C16: with the constants of `current.cpp` (`TARGET_POSITION = 1024`,
`DURATION = 3`, `P_GAIN = 1`, `D_GAIN = 0.1`, `MAX_CURRENT = 20`) and initial
position 0, the target at 1.5 s is 512; with the present position 500 the
position error is 12; with zero velocity the PD output is 12 and the goal
current is 12, unchanged by the limitation; and a tick at 1.5 s that reads the
position 500 after a previous position of 500 writes the goal current 12. -/
theorem C16_example_scenario :
    (Current.TARGET_POSITION = 1024 ∧ Current.DURATION = 3 ∧ Current.P_GAIN = 1 ∧
      Current.D_GAIN = 1 / 10 ∧ Current.MAX_CURRENT = 20) ∧
    Current.targetPosition 0 (3 / 2) = 512 ∧
    wrapInt32 (Current.targetPosition 0 (3 / 2) - 500) = 12 ∧
    Current.pdOutput 12 0 = 12 ∧
    Current.goalCurrent 12 0 = 12 ∧
    Current.clampCurrent 12 = 12 ∧
    Current.tick Current.envNominal 0 0 4
        { previous_position := 500, previous_time := 1, data_log := [] } =
      Step.next [Event.read4 1 132, Event.write2 1 102 12, Event.read2 1 126]
        { previous_position := 500, previous_time := 3 / 2,
          data_log := [{ time := 3 / 2, current := 0, position := 500 }] } := by
  have htarget : Current.targetPosition 0 (3 / 2) = 512 := by
    norm_num [Current.targetPosition, Current.TARGET_POSITION, Current.DURATION, truncToInt,
      wrapInt32]
  refine ⟨⟨rfl, rfl, rfl, rfl, rfl⟩, htarget, ?_, ?_, ?_, ?_, ?_⟩
  · rw [htarget]
    norm_num [wrapInt32]
  · norm_num [Current.pdOutput, Current.P_GAIN, Current.D_GAIN]
  · norm_num [Current.goalCurrent, Current.pdOutput, Current.P_GAIN, Current.D_GAIN,
      truncToInt, wrapInt16, Current.clampCurrent, Current.MAX_CURRENT]
  · norm_num [Current.clampCurrent, Current.MAX_CURRENT]
  · norm_num [Current.tick, Current.envNominal, okReply, COMM_SUCCESS,
      Current.DURATION, Current.targetPosition, Current.TARGET_POSITION, wrapInt32, wrapInt16,
      truncToInt, Current.goalCurrentAt, Current.velocity, Current.velocityDivisor,
      Current.goalCurrent, Current.pdOutput, Current.P_GAIN, Current.D_GAIN,
      Current.clampCurrent, Current.MAX_CURRENT, Current.DXL_ID, ADDR_GOAL_CURRENT,
      ADDR_PRESENT_POSITION, ADDR_PRESENT_CURRENT]

/-! ## Claims on the loop of current_control2.cpp -/

/-- C17 (as stated, refuted): in the run `CurrentControl2.envAtDuration` the elapsed
time of tick 0 is exactly 1000 ms, equal to `duration`; tick 0 still reads both
actuators, writes both goal currents and writes a telemetry row. The loop is
left at tick 1, at 1010 ms. -/
theorem C17_counterexample :
    (CurrentControl2.envAtDuration.clockMs 0 : ℚ) / 1000 = CurrentControl2.duration ∧
    CurrentControl2.main CurrentControl2.envAtDuration 2 =
      some [Event.write1 1 64 0, Event.write1 1 11 0, Event.write2 1 102 0,
        Event.write2 1 40 500, Event.write1 1 64 1,
        Event.write1 2 64 0, Event.write1 2 11 0, Event.write2 2 102 0, Event.write2 2 40 500,
        Event.write1 2 64 1,
        Event.read4 1 132, Event.read2 1 126, Event.read4 2 132, Event.read2 2 126,
        Event.stopFlagRead false,
        Event.read4 1 132, Event.read2 1 126, Event.read4 2 132, Event.read2 2 126,
        Event.write2 1 102 500, Event.write2 2 102 0, Event.row 1 0 0 0 0,
        Event.stopFlagRead false,
        Event.write2 1 102 0, Event.write2 2 102 0, Event.write1 1 64 0, Event.write1 2 64 0,
        Event.closePort] := by
  constructor
  · norm_num [CurrentControl2.envAtDuration, CurrentControl2.duration]
  · norm_num [CurrentControl2.main, CurrentControl2.controlLoop, CurrentControl2.tick,
      CurrentControl2.envAtDuration, CurrentControl2.setupMotor, CurrentControl2.getMotorData,
      CurrentControl2.initialParams, CurrentControl2.preLoop, CurrentControl2.shutdownWrites,
      CurrentControl2.pdOutput, CurrentControl2.limitCurrent, CurrentControl2.duration,
      CurrentControl2.dt, CurrentControl2.Kp, CurrentControl2.Kd,
      CurrentControl2.MAX_CURRENT, CurrentControl2.MIN_CURRENT,
      calculateTargetPosition, truncToInt, wrapInt32, wrapInt16,
      okReply, COMM_SUCCESS, ADDR_TORQUE_ENABLE, ADDR_OPERATING_MODE,
      ADDR_GOAL_CURRENT, ADDR_PRESENT_POSITION, ADDR_PRESENT_CURRENT,
      CurrentControl2.ADDR_TORQUE_LIMIT, CurrentControl2.DXL_ID1, CurrentControl2.DXL_ID2,
      CurrentControl2.CURRENT_CONTROL_MODE, TORQUE_ENABLE, TORQUE_DISABLE]

/-- C17 (amended): in the loop of `current_control2.cpp` a tick whose elapsed time
is greater than `duration` (1 s) leaves the loop having issued nothing but its
stop-flag read: no read, no goal-current write and no telemetry row; a tick
that sees the stop flag clear and whose elapsed time is exactly `duration`
(1000 ms) runs its body. -/
theorem C17_tick_beyond_duration_exits (env : CurrentControl2.Env)
    (p : CurrentControl2.Params) (i j k : Nat) (st : CurrentControl2.LoopState)
    (ht : (env.clockMs i : ℚ) / 1000 > CurrentControl2.duration) :
    CurrentControl2.duration = 1 ∧
    CurrentControl2.tick env p i k st = Step.exit [Event.stopFlagRead (env.stop i)] ∧
    (∀ e ∈ (CurrentControl2.tick env p i k st).events,
      CurrentControl2.isRead e = false ∧ CurrentControl2.isGoalCurrentWrite e = false ∧
        CurrentControl2.isRow e = false) ∧
    (env.stop j = false → env.clockMs j = 1000 →
      ∃ ev st', CurrentControl2.tick env p j k st = Step.next ev st' ∧
        Event.row 1 (wrapInt32 (env.bus k).data) (wrapInt16 (env.bus (k + 1)).data)
          (wrapInt32 (env.bus (k + 2)).data) (wrapInt16 (env.bus (k + 2 + 1)).data) ∈ ev) := by
  have hexit : CurrentControl2.tick env p i k st = Step.exit [Event.stopFlagRead (env.stop i)] := by
    rcases CurrentControl2.tick_cases env p i k st with ⟨hs, h⟩ | ⟨hs, -, h⟩ | ⟨-, hn, -⟩
    · rw [h, hs]
    · rw [h, hs]
    · exact absurd ht hn
  refine ⟨rfl, hexit, ?_, ?_⟩
  · rw [hexit]
    intro e he
    simp only [Step.events, List.mem_singleton] at he
    subst he
    exact ⟨rfl, rfl, rfl⟩
  · intro hs hc
    have hn : ¬ (env.clockMs j : ℚ) / 1000 > CurrentControl2.duration := by
      rw [hc]
      norm_num [CurrentControl2.duration]
    rcases CurrentControl2.tick_cases env p j k st with ⟨hs', -⟩ | ⟨-, ht', -⟩ | ⟨-, -, g1, g2, st', h⟩
    · rw [hs] at hs'
      exact absurd hs' (by simp)
    · exact absurd ht' hn
    · refine ⟨_, st', h, ?_⟩
      rw [hc]
      norm_num

/-- Witness for the amended C17: ticks 1 (1010 ms) and 0 (1000 ms) of the run
`CurrentControl2.envAtDuration`. -/
theorem C17_witness :
    CurrentControl2.duration = 1 ∧
    CurrentControl2.tick CurrentControl2.envAtDuration
        (CurrentControl2.initialParams CurrentControl2.envAtDuration.bus) 1 14
        { previous_error1 := 0, previous_error2 := 0 } =
      Step.exit [Event.stopFlagRead (CurrentControl2.envAtDuration.stop 1)] ∧
    (∀ e ∈ (CurrentControl2.tick CurrentControl2.envAtDuration
        (CurrentControl2.initialParams CurrentControl2.envAtDuration.bus) 1 14
        { previous_error1 := 0, previous_error2 := 0 }).events,
      CurrentControl2.isRead e = false ∧ CurrentControl2.isGoalCurrentWrite e = false ∧
        CurrentControl2.isRow e = false) ∧
    (CurrentControl2.envAtDuration.stop 0 = false →
      CurrentControl2.envAtDuration.clockMs 0 = 1000 →
      ∃ ev st', CurrentControl2.tick CurrentControl2.envAtDuration
          (CurrentControl2.initialParams CurrentControl2.envAtDuration.bus) 0 14
          { previous_error1 := 0, previous_error2 := 0 } = Step.next ev st' ∧
        Event.row 1 (wrapInt32 (CurrentControl2.envAtDuration.bus 14).data)
          (wrapInt16 (CurrentControl2.envAtDuration.bus (14 + 1)).data)
          (wrapInt32 (CurrentControl2.envAtDuration.bus (14 + 2)).data)
          (wrapInt16 (CurrentControl2.envAtDuration.bus (14 + 2 + 1)).data) ∈ ev) :=
  C17_tick_beyond_duration_exits CurrentControl2.envAtDuration
    (CurrentControl2.initialParams CurrentControl2.envAtDuration.bus) 1 0 14
    { previous_error1 := 0, previous_error2 := 0 }
    (by norm_num [CurrentControl2.envAtDuration, CurrentControl2.duration])

theorem truncToInt_mono {x y : ℚ} (h : x ≤ y) : truncToInt x ≤ truncToInt y := by
  rcases le_total 0 y with hy | hy
  · rcases le_total 0 x with hx | hx
    · rw [truncToInt_of_nonneg hx, truncToInt_of_nonneg hy]
      exact Int.floor_mono h
    · have h1 : truncToInt x ≤ 0 := truncToInt_le_of_le (by exact_mod_cast hx)
      have h2 : (0 : Int) ≤ truncToInt y := truncToInt_ge_of_le (by exact_mod_cast hy)
      exact le_trans h1 h2
  · rw [truncToInt_of_nonpos (le_trans h hy), truncToInt_of_nonpos hy]
    exact Int.ceil_mono h

/-- The limited current lies in `[MIN_CURRENT, MAX_CURRENT] = [0, 500]` and is 0
for a non-positive PD output. -/
theorem CurrentControl2.limitCurrent_bounds (out : ℚ) :
    0 ≤ CurrentControl2.limitCurrent out ∧ CurrentControl2.limitCurrent out ≤ 500 ∧
      (out ≤ 0 → CurrentControl2.limitCurrent out = 0) := by
  unfold CurrentControl2.limitCurrent
  have hmax : ((CurrentControl2.MAX_CURRENT : Int) : ℚ) = 500 := by
    norm_num [CurrentControl2.MAX_CURRENT]
  have hmin : ((CurrentControl2.MIN_CURRENT : Int) : ℚ) = 0 := by
    norm_num [CurrentControl2.MIN_CURRENT]
  rw [hmax, hmin]
  have hlo : ((0 : Int) : ℚ) ≤ max (min out 500) 0 := by
    simp
  have hhi : max (min out 500) 0 ≤ ((500 : Int) : ℚ) := by
    simp
  obtain ⟨h1, h2⟩ := truncToInt_mem_Icc hlo hhi
  rw [wrapInt16_of_range (by omega) (by omega)]
  refine ⟨h1, h2, ?_⟩
  intro hout
  have hz : max (min out 500) 0 = ((0 : Int) : ℚ) := by
    have : min out 500 ≤ 0 := le_trans (min_le_left _ _) hout
    simp [max_eq_right this]
  rw [hz, truncToInt_intCast]

/-- A tick of `current_control2.cpp` that passes both checks: its events and its
new state. -/
theorem CurrentControl2.tick_run (env : CurrentControl2.Env) (p : CurrentControl2.Params)
    (i k : Nat) (st : CurrentControl2.LoopState)
    (hs : env.stop i = false)
    (ht : ¬ (env.clockMs i : ℚ) / 1000 > CurrentControl2.duration) :
    CurrentControl2.tick env p i k st =
      Step.next
        [Event.stopFlagRead false,
         Event.read4 1 132, Event.read2 1 126, Event.read4 2 132, Event.read2 2 126,
         Event.write2 1 102 (CurrentControl2.limitCurrent (CurrentControl2.pdOutput
           ((wrapInt32 (calculateTargetPosition p.start_position1 p.goal_position1
             ((env.clockMs i : ℚ) / 1000) CurrentControl2.duration -
               wrapInt32 (env.bus k).data) : Int) : ℚ) st.previous_error1)),
         Event.write2 2 102 (CurrentControl2.limitCurrent (CurrentControl2.pdOutput
           ((wrapInt32 (calculateTargetPosition p.start_position2 p.goal_position2
             ((env.clockMs i : ℚ) / 1000) CurrentControl2.duration -
               wrapInt32 (env.bus (k + 2)).data) : Int) : ℚ) st.previous_error2)),
         Event.row ((env.clockMs i : ℚ) / 1000)
           (wrapInt32 (env.bus k).data) (wrapInt16 (env.bus (k + 1)).data)
           (wrapInt32 (env.bus (k + 2)).data) (wrapInt16 (env.bus (k + 2 + 1)).data)]
        { previous_error1 :=
            ((wrapInt32 (calculateTargetPosition p.start_position1 p.goal_position1
              ((env.clockMs i : ℚ) / 1000) CurrentControl2.duration -
                wrapInt32 (env.bus k).data) : Int) : ℚ)
          previous_error2 :=
            ((wrapInt32 (calculateTargetPosition p.start_position2 p.goal_position2
              ((env.clockMs i : ℚ) / 1000) CurrentControl2.duration -
                wrapInt32 (env.bus (k + 2)).data) : Int) : ℚ) } := by
  unfold CurrentControl2.tick
  simp only [hs, if_neg ht, Bool.false_eq_true, if_false]
  rfl

/-- Every 2-byte write of a tick of `current_control2.cpp` is a goal-current
write with a value in `[0, 500]`. -/
theorem CurrentControl2.tick_write2_bounds (env : CurrentControl2.Env)
    (p : CurrentControl2.Params) (i k : Nat) (st : CurrentControl2.LoopState)
    (id addr : Nat) (v : Int)
    (h : Event.write2 id addr v ∈ (CurrentControl2.tick env p i k st).events) :
    addr = 102 ∧ 0 ≤ v ∧ v ≤ 500 := by
  rcases CurrentControl2.tick_cases env p i k st with ⟨-, ht⟩ | ⟨-, -, ht⟩ | ⟨hs, hn, -⟩
  · rw [ht] at h
    simp [Step.events] at h
  · rw [ht] at h
    simp [Step.events] at h
  · rw [CurrentControl2.tick_run env p i k st hs hn] at h
    simp only [Step.events, List.mem_cons, List.mem_singleton, List.not_mem_nil, or_false,
      Event.write2.injEq, false_or, reduceCtorEq] at h
    rcases h with ⟨-, rfl, rfl⟩ | ⟨-, rfl, rfl⟩
    · exact ⟨rfl, (CurrentControl2.limitCurrent_bounds _).1,
        (CurrentControl2.limitCurrent_bounds _).2.1⟩
    · exact ⟨rfl, (CurrentControl2.limitCurrent_bounds _).1,
        (CurrentControl2.limitCurrent_bounds _).2.1⟩

/-- For `t ≥ 0` the target lies between a goal below the start and the start. -/
theorem calculateTargetPosition_between_of_nonneg (s g : Int) (t d : ℚ)
    (hs : isInt32 s) (hg : isInt32 g) (hd : isInt32 (g - s)) (hle : g ≤ s)
    (ht : 0 ≤ t) :
    g ≤ calculateTargetPosition s g t d ∧ calculateTargetPosition s g t d ≤ s := by
  rcases lt_or_le t d with h | h
  · have hb := (calculateTargetPosition_inside s g t d hs hg hd ht h).2
    rw [min_eq_right hle, max_eq_left hle] at hb
    exact hb
  · have : calculateTargetPosition s g t d = g := by
      unfold calculateTargetPosition
      rw [if_pos h]
    rw [this]
    exact ⟨le_rfl, hle⟩

/-- With a goal below the start, the target does not increase with time. -/
theorem calculateTargetPosition_antitone (s g : Int) (t t' d : ℚ)
    (hs : isInt32 s) (hg : isInt32 g) (hd : isInt32 (g - s)) (hle : g ≤ s)
    (hdur : 0 < d) (ht : 0 ≤ t) (htt : t ≤ t') :
    calculateTargetPosition s g t' d ≤ calculateTargetPosition s g t d := by
  rcases lt_or_le t' d with h | h
  · have h1 : t < d := lt_of_le_of_lt htt h
    rw [(calculateTargetPosition_inside s g t' d hs hg hd (le_trans ht htt) h).1,
      (calculateTargetPosition_inside s g t d hs hg hd ht h1).1]
    apply truncToInt_mono
    have hgs : ((g - s : Int) : ℚ) ≤ 0 := by
      have : g - s ≤ 0 := by omega
      exact_mod_cast this
    have hr : t / d ≤ t' / d := div_le_div_of_nonneg_right htt hdur.le
    nlinarith
  · have : calculateTargetPosition s g t' d = g := by
      unfold calculateTargetPosition
      rw [if_pos h]
    rw [this]
    exact (calculateTargetPosition_between_of_nonneg s g t d hs hg hd hle ht).1

/-- The position error of an actuator that stays at its start position, with a
goal below the start: it is the target minus the start, without overflow, and
it is not positive. -/
theorem error_at_start_nonpos (s g : Int) (t d : ℚ)
    (hs : isInt32 s) (hg : isInt32 g) (hd : isInt32 (g - s)) (hle : g ≤ s)
    (ht : 0 ≤ t) :
    wrapInt32 (calculateTargetPosition s g t d - s) = calculateTargetPosition s g t d - s ∧
      wrapInt32 (calculateTargetPosition s g t d - s) ≤ 0 := by
  obtain ⟨h1, h2⟩ := calculateTargetPosition_between_of_nonneg s g t d hs hg hd hle ht
  have hw : wrapInt32 (calculateTargetPosition s g t d - s) = calculateTargetPosition s g t d - s := by
    apply wrapInt32_of_isInt32
    unfold isInt32 at *
    omega
  rw [hw]
  exact ⟨rfl, by omega⟩

theorem error_at_start_antitone (s g : Int) (t t' d : ℚ)
    (hs : isInt32 s) (hg : isInt32 g) (hd : isInt32 (g - s)) (hle : g ≤ s)
    (hdur : 0 < d) (ht : 0 ≤ t) (htt : t ≤ t') :
    wrapInt32 (calculateTargetPosition s g t' d - s) ≤
      wrapInt32 (calculateTargetPosition s g t d - s) := by
  rw [(error_at_start_nonpos s g t' d hs hg hd hle (le_trans ht htt)).1,
    (error_at_start_nonpos s g t d hs hg hd hle ht).1]
  have := calculateTargetPosition_antitone s g t t' d hs hg hd hle hdur ht htt
  omega

theorem CurrentControl2.pdOutput_nonpos {error previous_error : ℚ}
    (h1 : error ≤ 0) (h2 : error ≤ previous_error) :
    CurrentControl2.pdOutput error previous_error ≤ 0 := by
  unfold CurrentControl2.pdOutput CurrentControl2.Kp CurrentControl2.Kd CurrentControl2.dt
  have : (error - previous_error) / (1 / 100) = 100 * (error - previous_error) := by
    ring
  rw [this]
  linarith

theorem clockMs_mono (clock : Nat → Int) (hmono : ∀ i, clock i ≤ clock (i + 1)) :
    ∀ i j, i ≤ j → clock i ≤ clock j := by
  intro i j hij
  induction j with
  | zero =>
    have : i = 0 := by omega
    rw [this]
  | succ j ih =>
    rcases Nat.lt_or_ge i (j + 1) with h | h
    · exact le_trans (ih (by omega)) (hmono j)
    · have : i = j + 1 := by omega
      rw [this]

/-- Actuator 2 stays at its start position, its goal is below the start, and
the elapsed times are non-negative and non-decreasing: as long as the stored
previous error is not below the errors of the ticks to come, every goal
current written to actuator 2 by the loop is 0. -/
theorem CurrentControl2.controlLoop_actuator2_zero (env : CurrentControl2.Env)
    (p : CurrentControl2.Params)
    (hs : isInt32 p.start_position2) (hg : isInt32 p.goal_position2)
    (hd : isInt32 (p.goal_position2 - p.start_position2))
    (hle : p.goal_position2 ≤ p.start_position2)
    (hpos : ∀ i, wrapInt32 (env.bus (14 + 6 * i + 2)).data = p.start_position2)
    (hnn : ∀ i, 0 ≤ env.clockMs i) (hmono : ∀ i, env.clockMs i ≤ env.clockMs (i + 1)) :
    ∀ (fuel i k : Nat) (st : CurrentControl2.LoopState) (ev : List Event),
      k = 14 + 6 * i →
      (∀ j, i ≤ j →
        ((wrapInt32 (calculateTargetPosition p.start_position2 p.goal_position2
          ((env.clockMs j : ℚ) / 1000) CurrentControl2.duration - p.start_position2) : Int) : ℚ)
          ≤ st.previous_error2) →
      CurrentControl2.controlLoop env p fuel i k st = some ev →
      ∀ v, Event.write2 2 102 v ∈ ev → v = 0 := by
  have hdur : (0 : ℚ) < CurrentControl2.duration := by norm_num [CurrentControl2.duration]
  have helapsed : ∀ i, (0 : ℚ) ≤ (env.clockMs i : ℚ) / 1000 := by
    intro i
    have : (0 : ℚ) ≤ (env.clockMs i : ℚ) := by exact_mod_cast hnn i
    positivity
  intro fuel
  induction fuel with
  | zero =>
    intro i k st ev hk hinv h
    simp [CurrentControl2.controlLoop] at h
  | succ fuel ih =>
    intro i k st ev hk hinv h v hv
    unfold CurrentControl2.controlLoop at h
    rcases CurrentControl2.tick_cases env p i k st with ⟨-, ht⟩ | ⟨-, -, ht⟩ | ⟨hstop, hn, -⟩
    · rw [ht] at h
      simp only [Option.some.injEq] at h
      rw [← h] at hv
      simp at hv
    · rw [ht] at h
      simp only [Option.some.injEq] at h
      rw [← h] at hv
      simp at hv
    · rw [CurrentControl2.tick_run env p i k st hstop hn] at h
      simp only [Option.map_eq_some'] at h
      obtain ⟨rest, hrest, rfl⟩ := h
      have hread : wrapInt32 (env.bus (k + 2)).data = p.start_position2 := by
        rw [hk]
        exact hpos i
      rw [hread] at hrest
      rcases List.mem_append.mp hv with h1 | h1
      · simp only [List.mem_cons, List.mem_singleton, List.not_mem_nil, or_false,
          Event.write2.injEq, false_or, reduceCtorEq] at h1
        rcases h1 with ⟨h1, -, -⟩ | ⟨-, -, rfl⟩
        · exact absurd h1 (by decide)
        · rw [hread]
          apply (CurrentControl2.limitCurrent_bounds _).2.2
          apply CurrentControl2.pdOutput_nonpos
          · exact_mod_cast (error_at_start_nonpos p.start_position2 p.goal_position2 _
              CurrentControl2.duration hs hg hd hle (helapsed i)).2
          · exact hinv i le_rfl
      · refine ih (i + 1) (k + 6) _ rest (by omega) ?_ hrest v h1
        intro j hj
        simp only []
        have hij : (env.clockMs i : ℚ) / 1000 ≤ (env.clockMs j : ℚ) / 1000 := by
          have : env.clockMs i ≤ env.clockMs j := clockMs_mono env.clockMs hmono i j (by omega)
          have : (env.clockMs i : ℚ) ≤ (env.clockMs j : ℚ) := by exact_mod_cast this
          linarith
        exact_mod_cast error_at_start_antitone p.start_position2 p.goal_position2 _ _
          CurrentControl2.duration hs hg hd hle hdur (helapsed i) hij

theorem CurrentControl2.controlLoop_write2_bounds (env : CurrentControl2.Env)
    (p : CurrentControl2.Params) :
    ∀ (fuel i k : Nat) (st : CurrentControl2.LoopState) (ev : List Event),
      CurrentControl2.controlLoop env p fuel i k st = some ev →
      ∀ id addr v, Event.write2 id addr v ∈ ev → addr = 102 ∧ 0 ≤ v ∧ v ≤ 500 := by
  intro fuel
  induction fuel with
  | zero =>
    intro i k st ev h
    simp [CurrentControl2.controlLoop] at h
  | succ fuel ih =>
    intro i k st ev h id addr v hv
    have hstep := CurrentControl2.tick_write2_bounds env p i k st id addr v
    unfold CurrentControl2.controlLoop at h
    cases htick : CurrentControl2.tick env p i k st with
    | exit ev0 =>
      rw [htick] at h hstep
      simp only [Option.some.injEq] at h
      subst h
      exact hstep hv
    | next ev0 st' =>
      rw [htick] at h hstep
      simp only [Option.map_eq_some'] at h
      obtain ⟨rest, hrest, rfl⟩ := h
      rcases List.mem_append.mp hv with h1 | h1
      · exact hstep h1
      · exact ih (i + 1) (k + 6) st' rest hrest id addr v h1

/-- C18 (as stated, refuted): in the run `CurrentControl2.envClockSetBack` the goal
of actuator 2 lies below its start position, its measured position equals its
start position at every tick, and the elapsed times -500 ms, -490 ms, ... of
successive ticks are non-decreasing; yet tick 0 writes the goal current 500 to
actuator 2 (the target at -0.5 s is 512 above the start). -/
theorem C18_counterexample :
    (∀ i, CurrentControl2.envClockSetBack.clockMs i ≤
      CurrentControl2.envClockSetBack.clockMs (i + 1)) ∧
    (∀ n, wrapInt32 (CurrentControl2.envClockSetBack.bus n).data =
      (CurrentControl2.initialParams CurrentControl2.envClockSetBack.bus).start_position2) ∧
    (CurrentControl2.initialParams CurrentControl2.envClockSetBack.bus).goal_position2 <
      (CurrentControl2.initialParams CurrentControl2.envClockSetBack.bus).start_position2 ∧
    CurrentControl2.main CurrentControl2.envClockSetBack 2 =
      some [Event.write1 1 64 0, Event.write1 1 11 0, Event.write2 1 102 0,
        Event.write2 1 40 500, Event.write1 1 64 1,
        Event.write1 2 64 0, Event.write1 2 11 0, Event.write2 2 102 0, Event.write2 2 40 500,
        Event.write1 2 64 1,
        Event.read4 1 132, Event.read2 1 126, Event.read4 2 132, Event.read2 2 126,
        Event.stopFlagRead false,
        Event.read4 1 132, Event.read2 1 126, Event.read4 2 132, Event.read2 2 126,
        Event.write2 1 102 0, Event.write2 2 102 500, Event.row (-1 / 2) 0 0 0 0,
        Event.stopFlagRead true,
        Event.write2 1 102 0, Event.write2 2 102 0, Event.write1 1 64 0, Event.write1 2 64 0,
        Event.closePort] := by
  refine ⟨?_, ?_, ?_, ?_⟩
  · intro i
    simp only [CurrentControl2.envClockSetBack]
    omega
  · intro n
    norm_num [CurrentControl2.envClockSetBack, CurrentControl2.initialParams,
      CurrentControl2.getMotorData, okReply, wrapInt32]
  · norm_num [CurrentControl2.envClockSetBack, CurrentControl2.initialParams,
      CurrentControl2.getMotorData, okReply, wrapInt32, truncToInt]
  · norm_num [CurrentControl2.main, CurrentControl2.controlLoop, CurrentControl2.tick,
      CurrentControl2.envClockSetBack, CurrentControl2.setupMotor, CurrentControl2.getMotorData,
      CurrentControl2.initialParams, CurrentControl2.preLoop, CurrentControl2.shutdownWrites,
      CurrentControl2.pdOutput, CurrentControl2.limitCurrent, CurrentControl2.duration,
      CurrentControl2.dt, CurrentControl2.Kp, CurrentControl2.Kd,
      CurrentControl2.MAX_CURRENT, CurrentControl2.MIN_CURRENT,
      calculateTargetPosition, truncToInt, wrapInt32, wrapInt16,
      okReply, COMM_SUCCESS, ADDR_TORQUE_ENABLE, ADDR_OPERATING_MODE,
      ADDR_GOAL_CURRENT, ADDR_PRESENT_POSITION, ADDR_PRESENT_CURRENT,
      CurrentControl2.ADDR_TORQUE_LIMIT, CurrentControl2.DXL_ID1, CurrentControl2.DXL_ID2,
      CurrentControl2.CURRENT_CONTROL_MODE, TORQUE_ENABLE, TORQUE_DISABLE]

/-- The loop of `current_control2.cpp`, started at tick `i` with the errors of
tick `i - 1` as previous errors, issues the events that the claim gives: the
bodies of some number of ticks, each sending the limited PD outputs of its own
errors and of the errors of the tick before, then the final stop-flag read. -/
theorem CurrentControl2.controlLoop_eq_spec (env : CurrentControl2.Env)
    (p : CurrentControl2.Params) :
    ∀ (fuel i : Nat) (ev : List Event),
      CurrentControl2.controlLoop env p fuel i (14 + 6 * i)
        { previous_error1 := CurrentControl2.specPreviousError (CurrentControl2.specError1 env p) i
          previous_error2 := CurrentControl2.specPreviousError (CurrentControl2.specError2 env p) i }
        = some ev →
      ∃ n, n < fuel ∧ ev = CurrentControl2.specLoopEvents env p i n := by
  intro fuel
  induction fuel with
  | zero =>
    intro i ev h
    simp [CurrentControl2.controlLoop] at h
  | succ fuel ih =>
    intro i ev h
    unfold CurrentControl2.controlLoop at h
    rcases CurrentControl2.tick_cases env p i (14 + 6 * i) _ with
      ⟨hs, ht⟩ | ⟨hs, -, ht⟩ | ⟨hstop, hn, -⟩
    · rw [ht] at h
      simp only [Option.some.injEq] at h
      exact ⟨0, by omega, by rw [← h, CurrentControl2.specLoopEvents, hs]⟩
    · rw [ht] at h
      simp only [Option.some.injEq] at h
      exact ⟨0, by omega, by rw [← h, CurrentControl2.specLoopEvents, hs]⟩
    · rw [CurrentControl2.tick_run env p i (14 + 6 * i) _ hstop hn] at h
      simp only [Option.map_eq_some'] at h
      obtain ⟨rest, hrest, rfl⟩ := h
      have hidx : 14 + 6 * i + 6 = 14 + 6 * (i + 1) := by ring
      rw [hidx] at hrest
      obtain ⟨n, hn', hev⟩ := ih (i + 1) rest hrest
      refine ⟨n + 1, by omega, ?_⟩
      rw [hev]
      rfl

/-- With actuator 2 at its start position at every tick, its goal below the
start, and non-negative, non-decreasing elapsed times, the PD output of
actuator 2 is not positive at any tick. -/
theorem CurrentControl2.specOutput2_nonpos (env : CurrentControl2.Env)
    (p : CurrentControl2.Params)
    (hs : isInt32 p.start_position2) (hg : isInt32 p.goal_position2)
    (hd : isInt32 (p.goal_position2 - p.start_position2))
    (hle : p.goal_position2 ≤ p.start_position2)
    (hpos : ∀ i, wrapInt32 (env.bus (14 + 6 * i + 2)).data = p.start_position2)
    (hnn : ∀ i, 0 ≤ env.clockMs i) (hmono : ∀ i, env.clockMs i ≤ env.clockMs (i + 1)) :
    ∀ i, CurrentControl2.specOutput2 env p i ≤ 0 := by
  have hdur : (0 : ℚ) < CurrentControl2.duration := by norm_num [CurrentControl2.duration]
  have helapsed : ∀ i, (0 : ℚ) ≤ (env.clockMs i : ℚ) / 1000 := by
    intro i
    have : (0 : ℚ) ≤ (env.clockMs i : ℚ) := by exact_mod_cast hnn i
    positivity
  have herr : ∀ i, CurrentControl2.specError2 env p i ≤ 0 := by
    intro i
    unfold CurrentControl2.specError2
    rw [hpos i]
    exact Int.cast_nonpos.mpr (error_at_start_nonpos p.start_position2 p.goal_position2 _
      CurrentControl2.duration hs hg hd hle (helapsed i)).2
  have hstep : ∀ i, CurrentControl2.specError2 env p (i + 1) ≤ CurrentControl2.specError2 env p i := by
    intro i
    unfold CurrentControl2.specError2
    rw [hpos i, hpos (i + 1)]
    have hij : (env.clockMs i : ℚ) / 1000 ≤ (env.clockMs (i + 1) : ℚ) / 1000 := by
      have : (env.clockMs i : ℚ) ≤ (env.clockMs (i + 1) : ℚ) := by exact_mod_cast hmono i
      linarith
    exact Int.cast_le.mpr (error_at_start_antitone p.start_position2 p.goal_position2 _ _
      CurrentControl2.duration hs hg hd hle hdur (helapsed i) hij)
  intro i
  show CurrentControl2.pdOutput (CurrentControl2.specError2 env p i)
    (CurrentControl2.specPreviousError (CurrentControl2.specError2 env p) i) ≤ 0
  apply CurrentControl2.pdOutput_nonpos (herr i)
  cases i with
  | zero => exact herr 0
  | succ j => exact hstep j

/-- C18 (amended): in the loop of `current_control2.cpp`, started by `main` with
both previous errors 0, the events are those of some number of ticks that run
their body followed by the final stop-flag read, and the goal current sent to
each actuator at tick `i` is the PD output
`Kp * error + Kd * (error - previous_error) / dt` of that tick's error and of
the error of the tick before (0 at tick 0), limited: it is in `[0, 500]` and
it is 0 whenever that PD output is `≤ 0`. Consequently, for actuator 2, whose
goal lies below its start position: if its measured position equals its start
position at every tick and the elapsed times of successive ticks are
non-negative and non-decreasing, then its PD output is `≤ 0` at every tick and
every goal current sent to actuator 2 during the loop is 0. -/
theorem C18_goal_current_range_and_actuator2_zero (env : CurrentControl2.Env)
    (p : CurrentControl2.Params) (fuel : Nat) (ev : List Event)
    (hloop : CurrentControl2.controlLoop env p fuel 0 14
      { previous_error1 := 0, previous_error2 := 0 } = some ev) :
    (∃ n, n < fuel ∧ ev = CurrentControl2.specLoopEvents env p 0 n) ∧
    (∀ i,
      CurrentControl2.specOutput1 env p i =
        CurrentControl2.Kp * CurrentControl2.specError1 env p i +
          CurrentControl2.Kd * ((CurrentControl2.specError1 env p i -
            CurrentControl2.specPreviousError (CurrentControl2.specError1 env p) i) /
              CurrentControl2.dt) ∧
      0 ≤ CurrentControl2.limitCurrent (CurrentControl2.specOutput1 env p i) ∧
      CurrentControl2.limitCurrent (CurrentControl2.specOutput1 env p i) ≤ 500 ∧
      (CurrentControl2.specOutput1 env p i ≤ 0 →
        CurrentControl2.limitCurrent (CurrentControl2.specOutput1 env p i) = 0) ∧
      0 ≤ CurrentControl2.limitCurrent (CurrentControl2.specOutput2 env p i) ∧
      CurrentControl2.limitCurrent (CurrentControl2.specOutput2 env p i) ≤ 500 ∧
      (CurrentControl2.specOutput2 env p i ≤ 0 →
        CurrentControl2.limitCurrent (CurrentControl2.specOutput2 env p i) = 0)) ∧
    (∀ id addr v, Event.write2 id addr v ∈ ev → addr = 102 ∧ 0 ≤ v ∧ v ≤ 500) ∧
    (isInt32 p.start_position2 → isInt32 p.goal_position2 →
      isInt32 (p.goal_position2 - p.start_position2) →
      p.goal_position2 < p.start_position2 →
      (∀ i, wrapInt32 (env.bus (14 + 6 * i + 2)).data = p.start_position2) →
      0 ≤ env.clockMs 0 → (∀ i, env.clockMs i ≤ env.clockMs (i + 1)) →
      (∀ i, CurrentControl2.specOutput2 env p i ≤ 0) ∧
        (∀ v, Event.write2 2 102 v ∈ ev → v = 0)) := by
  refine ⟨CurrentControl2.controlLoop_eq_spec env p fuel 0 ev hloop, ?_,
    CurrentControl2.controlLoop_write2_bounds env p fuel 0 14 _ ev hloop, ?_⟩
  · intro i
    have h1 := CurrentControl2.limitCurrent_bounds (CurrentControl2.specOutput1 env p i)
    have h2 := CurrentControl2.limitCurrent_bounds (CurrentControl2.specOutput2 env p i)
    exact ⟨rfl, h1.1, h1.2.1, h1.2.2, h2.1, h2.2.1, h2.2.2⟩
  · intro hs hg hd hbelow hpos h0 hmono
    have hnn : ∀ i, 0 ≤ env.clockMs i := fun i =>
      le_trans h0 (clockMs_mono env.clockMs hmono 0 i (Nat.zero_le i))
    refine ⟨CurrentControl2.specOutput2_nonpos env p hs hg hd hbelow.le hpos hnn hmono, ?_⟩
    refine CurrentControl2.controlLoop_actuator2_zero env p hs hg hd hbelow.le hpos hnn hmono
      fuel 0 14 _ ev rfl ?_ hloop
    intro j _
    have hel : (0 : ℚ) ≤ (env.clockMs j : ℚ) / 1000 := by
      have : (0 : ℚ) ≤ (env.clockMs j : ℚ) := by exact_mod_cast hnn j
      positivity
    have herr := (error_at_start_nonpos p.start_position2 p.goal_position2 _
      CurrentControl2.duration hs hg hd hbelow.le hel).2
    show ((_ : Int) : ℚ) ≤ (0 : ℚ)
    exact Int.cast_nonpos.mpr herr

/-- Witness for the amended C18: the loop of the run `CurrentControl2.envMoving`.
Actuator 1 has the errors 0, 1, 1 in its three ticks, so that its goal currents
are 0, 55 (previous error 0) and 5 (previous error 1); actuator 2 stays at its
start position and is sent 0 throughout. -/
theorem C18_witness :
    (∃ n, n < 4 ∧
      [Event.stopFlagRead false,
          Event.read4 1 132, Event.read2 1 126, Event.read4 2 132, Event.read2 2 126,
          Event.write2 1 102 0, Event.write2 2 102 0, Event.row 0 0 0 0 0,
          Event.stopFlagRead false,
          Event.read4 1 132, Event.read2 1 126, Event.read4 2 132, Event.read2 2 126,
          Event.write2 1 102 55, Event.write2 2 102 0, Event.row (1 / 100) 9 0 0 0,
          Event.stopFlagRead false,
          Event.read4 1 132, Event.read2 1 126, Event.read4 2 132, Event.read2 2 126,
          Event.write2 1 102 5, Event.write2 2 102 0, Event.row (1 / 50) 19 0 0 0,
          Event.stopFlagRead true] =
        CurrentControl2.specLoopEvents CurrentControl2.envMoving
          (CurrentControl2.initialParams CurrentControl2.envMoving.bus) 0 n) ∧
    (∀ id addr v,
      Event.write2 id addr v ∈
        [Event.stopFlagRead false,
          Event.read4 1 132, Event.read2 1 126, Event.read4 2 132, Event.read2 2 126,
          Event.write2 1 102 0, Event.write2 2 102 0, Event.row 0 0 0 0 0,
          Event.stopFlagRead false,
          Event.read4 1 132, Event.read2 1 126, Event.read4 2 132, Event.read2 2 126,
          Event.write2 1 102 55, Event.write2 2 102 0, Event.row (1 / 100) 9 0 0 0,
          Event.stopFlagRead false,
          Event.read4 1 132, Event.read2 1 126, Event.read4 2 132, Event.read2 2 126,
          Event.write2 1 102 5, Event.write2 2 102 0, Event.row (1 / 50) 19 0 0 0,
          Event.stopFlagRead true] → addr = 102 ∧ 0 ≤ v ∧ v ≤ 500) ∧
    (∀ i, CurrentControl2.specOutput2 CurrentControl2.envMoving
      (CurrentControl2.initialParams CurrentControl2.envMoving.bus) i ≤ 0) ∧
    (∀ v,
      Event.write2 2 102 v ∈
        [Event.stopFlagRead false,
          Event.read4 1 132, Event.read2 1 126, Event.read4 2 132, Event.read2 2 126,
          Event.write2 1 102 0, Event.write2 2 102 0, Event.row 0 0 0 0 0,
          Event.stopFlagRead false,
          Event.read4 1 132, Event.read2 1 126, Event.read4 2 132, Event.read2 2 126,
          Event.write2 1 102 55, Event.write2 2 102 0, Event.row (1 / 100) 9 0 0 0,
          Event.stopFlagRead false,
          Event.read4 1 132, Event.read2 1 126, Event.read4 2 132, Event.read2 2 126,
          Event.write2 1 102 5, Event.write2 2 102 0, Event.row (1 / 50) 19 0 0 0,
          Event.stopFlagRead true] → v = 0) := by
  have h := C18_goal_current_range_and_actuator2_zero CurrentControl2.envMoving
    (CurrentControl2.initialParams CurrentControl2.envMoving.bus) 4
    [Event.stopFlagRead false,
          Event.read4 1 132, Event.read2 1 126, Event.read4 2 132, Event.read2 2 126,
          Event.write2 1 102 0, Event.write2 2 102 0, Event.row 0 0 0 0 0,
          Event.stopFlagRead false,
          Event.read4 1 132, Event.read2 1 126, Event.read4 2 132, Event.read2 2 126,
          Event.write2 1 102 55, Event.write2 2 102 0, Event.row (1 / 100) 9 0 0 0,
          Event.stopFlagRead false,
          Event.read4 1 132, Event.read2 1 126, Event.read4 2 132, Event.read2 2 126,
          Event.write2 1 102 5, Event.write2 2 102 0, Event.row (1 / 50) 19 0 0 0,
          Event.stopFlagRead true]
    (by
      norm_num [CurrentControl2.controlLoop, CurrentControl2.tick,
        CurrentControl2.envMoving, CurrentControl2.getMotorData,
        CurrentControl2.initialParams,
        CurrentControl2.pdOutput, CurrentControl2.limitCurrent, CurrentControl2.duration,
        CurrentControl2.dt, CurrentControl2.Kp, CurrentControl2.Kd,
        CurrentControl2.MAX_CURRENT, CurrentControl2.MIN_CURRENT,
        calculateTargetPosition, truncToInt, wrapInt32, wrapInt16,
        okReply, ADDR_GOAL_CURRENT, ADDR_PRESENT_POSITION, ADDR_PRESENT_CURRENT,
        CurrentControl2.DXL_ID1, CurrentControl2.DXL_ID2])
  have hpos : ∀ i, wrapInt32 (CurrentControl2.envMoving.bus (14 + 6 * i + 2)).data =
      (CurrentControl2.initialParams CurrentControl2.envMoving.bus).start_position2 := by
    intro i
    have h1 : ¬ (14 + 6 * i + 2 = 20) := by omega
    have h2 : ¬ (14 + 6 * i + 2 = 26) := by omega
    simp [CurrentControl2.envMoving, CurrentControl2.initialParams,
      CurrentControl2.getMotorData, okReply, wrapInt32, h1, h2]
  have hB := h.2.2.2
    (by
      unfold isInt32
      norm_num [CurrentControl2.envMoving, CurrentControl2.initialParams,
        CurrentControl2.getMotorData, okReply, wrapInt32])
    (by
      unfold isInt32
      norm_num [CurrentControl2.envMoving, CurrentControl2.initialParams,
        CurrentControl2.getMotorData, okReply, wrapInt32, truncToInt])
    (by
      unfold isInt32
      norm_num [CurrentControl2.envMoving, CurrentControl2.initialParams,
        CurrentControl2.getMotorData, okReply, wrapInt32, truncToInt])
    (by
      norm_num [CurrentControl2.envMoving, CurrentControl2.initialParams,
        CurrentControl2.getMotorData, okReply, wrapInt32, truncToInt])
    hpos
    (by simp [CurrentControl2.envMoving])
    (by
      intro i
      simp only [CurrentControl2.envMoving]
      omega)
  exact ⟨h.1, h.2.2.1, hB.1, hB.2⟩

end Dinamixel
